import Mathlib

/-!
# MtaaSuite OTP functions

A shallow embedding of `functions/index.js`: the phone validator, the code
generator, the provider cascade of `sendOTP` and the record state machine of
`verifyOTP`, over an explicit model of the `otps` Firestore collection.

Modelling conventions.
* Times are milliseconds since the epoch, as natural numbers.
* The `otps` collection is a function from document id (the phone number) to an
  optional document. Documents of the collection are written by `sendOTP` and
  updated by `verifyOTP` only, so a document has the fields of the object
  literal that `sendOTP` passes to `set`, plus `verifiedAt` once verified.
* A response `timestamp` is the clock reading itself, not its ISO-8601
  rendering; logging is left out.
* `sendOTP` announces a first step through Firebase Auth built-in SMS, but that
  step is a log line only: the first delivery attempt in the code is Beem.
* The three HTTP adapters catch every exception and return a boolean; the
  outcome of the remote exchange is a parameter (`Adapters`).
* Firestore calls themselves are assumed not to throw, except `update` on a
  missing document, which rejects (used only in the interleaving model).
-/

namespace MtaaSuite

/-! ## Errors and responses -/

/-- The `HttpsError` codes used by the functions. -/
inductive ErrorCode where
  | invalidArgument
  | notFound
  | deadlineExceeded
  | alreadyExists
  | resourceExhausted
  | internal
  deriving DecidableEq, Repr

/-- An `HttpsError`: a code and a human-readable message. -/
structure HttpsError where
  code : ErrorCode
  message : String
  deriving DecidableEq, Repr

/-- JavaScript truthiness of a string value: the empty string is falsy. -/
def truthy (s : String) : Bool := s != ""

/-! ## Phone validation -/

/-- One position of the pattern `/^\+255[67]\d{8}$/`. -/
inductive Atom where
  | lit (c : Char)
  | oneOf (cs : List Char)
  | digit
  deriving DecidableEq, Repr

/-- Whether a character matches a pattern position; `\d` is `[0-9]`. -/
def Atom.matchChar : Atom → Char → Bool
  | .lit c, x => x == c
  | .oneOf cs, x => cs.contains x
  | .digit, x => decide ('0'.toNat ≤ x.toNat ∧ x.toNat ≤ '9'.toNat)

/-- Anchored match (`^ ... $`) of a sequence of one-character positions. -/
def matchAnchored : List Atom → List Char → Bool
  | [], [] => true
  | a :: as, c :: cs => a.matchChar c && matchAnchored as cs
  | _, _ => false

/-- The pattern `/^\+255[67]\d{8}$/`. -/
def tzPhoneRegex : List Atom :=
  [.lit '+', .lit '2', .lit '5', .lit '5', .oneOf ['6', '7']] ++ List.replicate 8 .digit

/-- `validateTanzaniaPhone`: `tzPhoneRegex.test(phoneNumber)`. -/
def validateTanzaniaPhone (phoneNumber : String) : Bool :=
  matchAnchored tzPhoneRegex phoneNumber.data

/-! ## Code generation -/

/-- `generateOTP`: `Math.floor(100000 + Math.random() * 900000).toString()`,
with the random draw `r` made explicit. -/
def generateOTP (r : ℚ) : String :=
  toString ⌊100000 + r * 900000⌋

/-! ## The `otps` collection -/

/-- A document of the `otps` collection. -/
structure OTPRecord where
  otp : String
  timestamp : Nat
  expiresAt : Nat
  attempts : Nat
  verified : Bool
  verifiedAt : Option Nat := none
  deriving DecidableEq, Repr

/-- A stored field value. -/
inductive FieldValue where
  | str (s : String)
  | num (n : Nat)
  | bool (b : Bool)
  | time (t : Nat)
  deriving DecidableEq, Repr

/-- `otpDoc.data()`: the fields of a document, by name. -/
def OTPRecord.data (r : OTPRecord) : List (String × FieldValue) :=
  [("otp", .str r.otp), ("timestamp", .time r.timestamp), ("expiresAt", .time r.expiresAt),
   ("attempts", .num r.attempts), ("verified", .bool r.verified)] ++
  (match r.verifiedAt with
   | some t => [("verifiedAt", .time t)]
   | none => [])

/-- The collection, keyed by phone number. -/
abbrev Store := String → Option OTPRecord

/-- The empty collection. -/
def Store.empty : Store := fun _ => none

/-- `doc(key).set(record)`: unconditional overwrite. -/
def Store.set (s : Store) (key : String) (r : OTPRecord) : Store :=
  fun k => if k = key then some r else s k

/-- `ref.delete()`. -/
def Store.delete (s : Store) (key : String) : Store :=
  fun k => if k = key then none else s k

/-- The three clock readings of one invocation: the local clock used for the
expiry computation and comparison, the Firestore server timestamp, and the
local clock when the response is built. -/
structure Clock where
  now : Nat
  serverTime : Nat
  responseTime : Nat
  deriving DecidableEq, Repr

/-! ## sendOTP -/

/-- The SMS providers, in the order of `SMS_PROVIDERS`. -/
inductive Provider where
  | Beem
  | Tigo
  | Twilio
  deriving DecidableEq, Repr

/-- The `name` of a provider, as returned in the response. -/
def Provider.name : Provider → String
  | .Beem => "Beem"
  | .Tigo => "Tigo"
  | .Twilio => "Twilio"

/-- Outcome of each adapter for a recipient and a message body. -/
structure Adapters where
  sendViaBeem : String → String → Bool
  sendViaTigo : String → String → Bool
  sendViaTwilio : String → String → Bool

/-- One adapter invocation, as observed from outside. -/
structure AdapterCall where
  provider : Provider
  phoneNumber : String
  message : String
  deriving DecidableEq, Repr

/-- The success response of `sendOTP`. -/
structure SendResponse where
  success : Bool
  provider : String
  message : String
  timestamp : Nat
  deriving DecidableEq, Repr

/-- The result of one `sendOTP` invocation: the value returned or the error
thrown, the collection afterwards, and the adapter calls made, in order. -/
structure SendOutcome where
  result : Except HttpsError SendResponse
  store : Store
  calls : List AdapterCall

/-- The default message template. -/
def defaultMessage (otp : String) : String :=
  "Your MtaaSuite verification code is: " ++ otp ++ ". Valid for 10 minutes. " ++
  "Do not share this code."

/-- The message body: `customMessage || <template>`. -/
def composeMessage (customMessage : Option String) (otp : String) : String :=
  match customMessage with
  | some m => if truthy m then m else defaultMessage otp
  | none => defaultMessage otp

/-- The record written on success. -/
def freshRecord (clk : Clock) (otp : String) : OTPRecord :=
  { otp := otp
    timestamp := clk.serverTime
    expiresAt := clk.now + 10 * 60 * 1000
    attempts := 0
    verified := false }

/-- The body of `sendOTP`. -/
def sendOTP (ad : Adapters) (clk : Clock) (r : ℚ) (store : Store)
    (phoneNumber : String) (customMessage : Option String) : SendOutcome :=
  if !truthy phoneNumber then
    ⟨.error ⟨.invalidArgument, "Phone number is required"⟩, store, []⟩
  else if !validateTanzaniaPhone phoneNumber then
    ⟨.error ⟨.invalidArgument, "Invalid Tanzania phone number format. Use +255XXXXXXXXX"⟩,
      store, []⟩
  else
    let otp := generateOTP r
    let message := composeMessage customMessage otp
    let beemSuccess := ad.sendViaBeem phoneNumber message
    let c1 : AdapterCall := ⟨.Beem, phoneNumber, message⟩
    if beemSuccess then
      ⟨.ok ⟨true, "Beem", "OTP sent successfully via Beem SMS", clk.responseTime⟩,
        store.set phoneNumber (freshRecord clk otp), [c1]⟩
    else
      let tigoSuccess := ad.sendViaTigo phoneNumber message
      let c2 : AdapterCall := ⟨.Tigo, phoneNumber, message⟩
      if tigoSuccess then
        ⟨.ok ⟨true, "Tigo", "OTP sent successfully via Tigo SMS", clk.responseTime⟩,
          store.set phoneNumber (freshRecord clk otp), [c1, c2]⟩
      else
        let twilioSuccess := ad.sendViaTwilio phoneNumber message
        let c3 : AdapterCall := ⟨.Twilio, phoneNumber, message⟩
        if twilioSuccess then
          ⟨.ok ⟨true, "Twilio", "OTP sent successfully via Twilio SMS", clk.responseTime⟩,
            store.set phoneNumber (freshRecord clk otp), [c1, c2, c3]⟩
        else
          ⟨.error ⟨.internal,
              "Failed to send SMS via all providers. Please try again later."⟩,
            store, [c1, c2, c3]⟩

/-! ## verifyOTP -/

/-- The success response of `verifyOTP`. -/
structure VerifyResponse where
  success : Bool
  message : String
  timestamp : Nat
  deriving DecidableEq, Repr

/-- The result of one `verifyOTP` invocation. -/
structure VerifyOutcome where
  result : Except HttpsError VerifyResponse
  store : Store

/-- The error thrown when no document exists. -/
def errNotFound : HttpsError := ⟨.notFound, "OTP not found. Please request a new one."⟩
/-- The error thrown when the document has expired. -/
def errExpired : HttpsError := ⟨.deadlineExceeded, "OTP has expired. Please request a new one."⟩
/-- The error thrown when the document is already verified. -/
def errUsed : HttpsError := ⟨.alreadyExists, "OTP has already been used."⟩
/-- The error thrown when the attempts limit is reached. -/
def errExhausted : HttpsError :=
  ⟨.resourceExhausted, "Too many failed attempts. Please request a new OTP."⟩
/-- The error thrown when the supplied code differs from the stored one. -/
def errMismatch : HttpsError := ⟨.invalidArgument, "Invalid OTP. Please check and try again."⟩
/-- The error thrown when a required field is missing. -/
def errRequired : HttpsError := ⟨.invalidArgument, "Phone number and OTP are required"⟩

/-- The update `attempts: FieldValue.increment(1)` applied to a document. -/
def OTPRecord.incrementAttempts (d : OTPRecord) : OTPRecord :=
  { d with attempts := d.attempts + 1 }

/-- The update `verified: true, verifiedAt: serverTimestamp()` applied to a document. -/
def OTPRecord.markVerified (d : OTPRecord) (serverTime : Nat) : OTPRecord :=
  { d with verified := true, verifiedAt := some serverTime }

/-- The body of `verifyOTP`, run without interruption. -/
def verifyOTP (clk : Clock) (store : Store) (phoneNumber otp : String) : VerifyOutcome :=
  if !truthy phoneNumber || !truthy otp then
    ⟨.error errRequired, store⟩
  else
    match store phoneNumber with
    | none => ⟨.error errNotFound, store⟩
    | some otpData =>
      if clk.now > otpData.expiresAt then
        ⟨.error errExpired, store.delete phoneNumber⟩
      else if otpData.verified then
        ⟨.error errUsed, store⟩
      else if otpData.attempts ≥ 3 then
        ⟨.error errExhausted, store.delete phoneNumber⟩
      else if otpData.otp ≠ otp then
        ⟨.error errMismatch, store.set phoneNumber otpData.incrementAttempts⟩
      else
        ⟨.ok ⟨true, "OTP verified successfully", clk.responseTime⟩,
          store.set phoneNumber (otpData.markVerified clk.serverTime)⟩

/-! ## The validator in the words of the specification -/

/-- The ten ASCII decimal digits. -/
def asciiDigits : List Char := ['0', '1', '2', '3', '4', '5', '6', '7', '8', '9']

/-- The accepted format as the specification words it: exactly 13 characters,
namely `+255`, then one character that is `6` or `7`, then exactly 8 ASCII
decimal digits. -/
def IsTanzaniaMobile (s : String) : Prop :=
  s.length = 13 ∧ s.data.take 4 = ['+', '2', '5', '5'] ∧
  (s.data[4]? = some '6' ∨ s.data[4]? = some '7') ∧
  (s.data.drop 5).length = 8 ∧ ∀ c ∈ s.data.drop 5, c ∈ asciiDigits

instance (s : String) : Decidable (IsTanzaniaMobile s) := by
  unfold IsTanzaniaMobile; infer_instance

/-! ## Observing the cascade -/

/-- The adapter function of a provider. -/
def Adapters.outcome (ad : Adapters) : Provider → String → String → Bool
  | .Beem => ad.sendViaBeem
  | .Tigo => ad.sendViaTigo
  | .Twilio => ad.sendViaTwilio

/-- The priority order of the cascade. -/
def cascadeOrder : List Provider := [.Beem, .Tigo, .Twilio]

/-- The first provider, in priority order, whose adapter reports success. -/
def firstSuccess (ad : Adapters) (phoneNumber message : String) : Option Provider :=
  cascadeOrder.find? (fun pr => ad.outcome pr phoneNumber message)

/-! ## Sequential executions -/

/-- One invocation of a callable function, with everything it reads from
outside the collection. -/
inductive Call where
  | send (ad : Adapters) (clk : Clock) (r : ℚ) (phoneNumber : String)
      (customMessage : Option String)
  | verify (clk : Clock) (phoneNumber otp : String)

/-- The collection after one invocation. -/
def Call.exec (s : Store) : Call → Store
  | .send ad clk r phoneNumber customMessage =>
    (sendOTP ad clk r s phoneNumber customMessage).store
  | .verify clk phoneNumber otp => (verifyOTP clk s phoneNumber otp).store

/-- The collection after a sequence of invocations run one after another. -/
def runCalls (s : Store) (calls : List Call) : Store :=
  calls.foldl Call.exec s

/-- Whether a `verifyOTP` result is the mismatch error. -/
def isMismatch : Except HttpsError VerifyResponse → Bool
  | .error e => decide (e = errMismatch)
  | .ok _ => false

/-- The number of `verifyOTP` invocations that returned the mismatch error for
`p` since the document of `p` was last written by `sendOTP`, along a sequence of
invocations started in collection `s` with running count `n`. -/
def mismatchCount (p : String) : Store → List Call → Nat → Nat
  | _, [], n => n
  | s, .send ad clk r phoneNumber customMessage :: rest, n =>
    mismatchCount p (sendOTP ad clk r s phoneNumber customMessage).store rest
      (if phoneNumber = p ∧ (sendOTP ad clk r s phoneNumber customMessage).result.toBool = true
        then 0 else n)
  | s, .verify clk phoneNumber otp :: rest, n =>
    mismatchCount p (verifyOTP clk s phoneNumber otp).store rest
      (if phoneNumber = p ∧ isMismatch (verifyOTP clk s phoneNumber otp).result = true
        then n + 1 else n)

/-! ## Interleaved executions of verifyOTP

`verifyOTP` awaits twice: the `get()` of the document, and then at most one
write (`delete()` or `update()`). The code between two awaits runs without
interruption; invocations may interleave at the awaits. `update` with
`FieldValue.increment(1)` is applied by Firestore to the document as stored
when the write arrives, and `update` on a missing document rejects. -/

/-- Where an invocation stands. -/
inductive Phase where
  | start
  | deleting (e : HttpsError)
  | incrementing
  | marking
  | done (result : Except HttpsError VerifyResponse)

/-- One invocation of `verifyOTP` in flight. -/
structure Invocation where
  clk : Clock
  phoneNumber : String
  otp : String
  phase : Phase

/-- The error thrown by the outer `catch` when a Firestore call rejects. -/
def errInternal (detail : String) : HttpsError :=
  ⟨.internal, "OTP verification failed: " ++ detail⟩

/-- The message of the rejection of `update` on a missing document. -/
def noDocumentToUpdate : String := "No document to update"

/-- The code that runs when `get()` resolves with `snapshot`, up to the next
await. -/
def afterGet (clk : Clock) (otp : String) (snapshot : Option OTPRecord) : Phase :=
  match snapshot with
  | none => .done (.error errNotFound)
  | some otpData =>
    if clk.now > otpData.expiresAt then .deleting errExpired
    else if otpData.verified then .done (.error errUsed)
    else if otpData.attempts ≥ 3 then .deleting errExhausted
    else if otpData.otp ≠ otp then .incrementing
    else .marking

/-- The next uninterrupted piece of an invocation, against the collection as
it is at that moment. -/
def Invocation.step (inv : Invocation) (store : Store) : Invocation × Store :=
  match inv.phase with
  | .start =>
    if !truthy inv.phoneNumber || !truthy inv.otp then
      ({ inv with phase := .done (.error errRequired) }, store)
    else
      ({ inv with phase := afterGet inv.clk inv.otp (store inv.phoneNumber) }, store)
  | .deleting e =>
    ({ inv with phase := .done (.error e) }, store.delete inv.phoneNumber)
  | .incrementing =>
    match store inv.phoneNumber with
    | some d =>
      ({ inv with phase := .done (.error errMismatch) },
        store.set inv.phoneNumber d.incrementAttempts)
    | none => ({ inv with phase := .done (.error (errInternal noDocumentToUpdate)) }, store)
  | .marking =>
    match store inv.phoneNumber with
    | some d =>
      ({ inv with
          phase := .done (.ok ⟨true, "OTP verified successfully", inv.clk.responseTime⟩) },
        store.set inv.phoneNumber (d.markVerified inv.clk.serverTime))
    | none => ({ inv with phase := .done (.error (errInternal noDocumentToUpdate)) }, store)
  | .done _ => (inv, store)

/-- Whether an invocation has returned or thrown. -/
def Phase.isDone : Phase → Bool
  | .done _ => true
  | _ => false

/-- Whether an invocation has thrown the mismatch error. -/
def Phase.isDoneMismatch : Phase → Bool
  | .done res => isMismatch res
  | _ => false

/-- The error an invocation has thrown, when it has finished by throwing. -/
def Phase.thrown : Phase → Option HttpsError
  | .done (.error e) => some e
  | _ => none

/-- The collection and the invocations in flight. -/
structure Config where
  store : Store
  calls : List Invocation

/-- Invocation number `i` runs its next piece. -/
def Config.stepAt (cfg : Config) (i : Nat) : Config :=
  match cfg.calls[i]? with
  | none => cfg
  | some inv => ⟨(inv.step cfg.store).2, cfg.calls.set i (inv.step cfg.store).1⟩

/-- An interleaving: the invocations run their pieces in the order given. -/
def Config.run (cfg : Config) (schedule : List Nat) : Config :=
  schedule.foldl Config.stepAt cfg

/-- A fresh invocation of `verifyOTP`. -/
def Invocation.fresh (clk : Clock) (phoneNumber otp : String) : Invocation :=
  ⟨clk, phoneNumber, otp, .start⟩

/-! ## The code set in the words of the specification -/

/-- A string of exactly 6 characters, each an ASCII decimal digit: the strings
`000000` through `999999`. -/
def IsSixDigitString (s : String) : Prop :=
  s.length = 6 ∧ ∀ c ∈ s.data, c ∈ asciiDigits

instance (s : String) : Decidable (IsSixDigitString s) := by
  unfold IsSixDigitString; infer_instance

/-- The strings `generateOTP` can return: its values at the draws `r` with
`0 <= r < 1`, the range of `Math.random()`. -/
def IsGeneratedCode (s : String) : Prop :=
  ∃ r : ℚ, 0 ≤ r ∧ r < 1 ∧ generateOTP r = s

/-! ## The calls of one cascade -/

/-- The adapter calls of one cascade for recipient `phoneNumber` and body
`message`: the providers in priority order, up to and including the first one
that reports success. -/
def cascadeCalls (ad : Adapters) (phoneNumber message : String) : List AdapterCall :=
  if ad.sendViaBeem phoneNumber message then
    [⟨.Beem, phoneNumber, message⟩]
  else if ad.sendViaTigo phoneNumber message then
    [⟨.Beem, phoneNumber, message⟩, ⟨.Tigo, phoneNumber, message⟩]
  else
    [⟨.Beem, phoneNumber, message⟩, ⟨.Tigo, phoneNumber, message⟩,
     ⟨.Twilio, phoneNumber, message⟩]

/-! ## Invariants used in the proofs -/

/-- The attempt counter of the document of `p`, when there is one, is at most 3
and equals the running count `n`. -/
def AttemptsInv (p : String) (s : Store) (n : Nat) : Prop :=
  ∀ d, s p = some d → d.attempts ≤ 3 ∧ d.attempts = n

/-- The number of uninterrupted pieces an invocation still has to run, at most. -/
def Phase.stepsLeft : Phase → Nat
  | .start => 2
  | .deleting _ => 1
  | .incrementing => 1
  | .marking => 1
  | .done _ => 0

/-- What holds of every invocation in a race of wrong guesses on the document
`d0` of `p`: it addresses `p`, supplies a non-empty code different from the
stored one, reads the clock before expiry, and is either at its start, about to
increment, or finished with the mismatch error. -/
def WrongGuess (p : String) (d0 : OTPRecord) (inv : Invocation) : Prop :=
  inv.phoneNumber = p ∧ inv.otp ≠ "" ∧ inv.otp ≠ d0.otp ∧ inv.clk.now ≤ d0.expiresAt ∧
  (inv.phase = .start ∨ inv.phase = .incrementing ∨ inv.phase = .done (.error errMismatch))

/-- The invariant of a race of wrong guesses: the document of `p` is `d0` with
`attempts` equal to the number of invocations that have thrown the mismatch
error. -/
def RaceInv (p : String) (d0 : OTPRecord) (cfg : Config) : Prop :=
  (∀ inv ∈ cfg.calls, WrongGuess p d0 inv) ∧
  cfg.store p = some { d0 with attempts := cfg.calls.countP (fun inv => inv.phase.isDoneMismatch) }

/-! ## Sample inputs -/

/-- A well-formed Tanzanian mobile number. -/
def samplePhone : String := "+255712345678"

/-- Clock readings of an issuing invocation. -/
def sampleClock : Clock := ⟨1000, 1001, 1002⟩

/-- Clock readings of a later invocation, within the ten minutes. -/
def laterClock : Clock := ⟨2000, 2001, 2002⟩

/-- Every adapter reports success. -/
def allUp : Adapters := ⟨fun _ _ => true, fun _ _ => true, fun _ _ => true⟩

/-- Beem fails, Tigo succeeds. -/
def beemDown : Adapters := ⟨fun _ _ => false, fun _ _ => true, fun _ _ => true⟩

/-- Every adapter reports failure. -/
def allDown : Adapters := ⟨fun _ _ => false, fun _ _ => false, fun _ _ => false⟩

/-- The collection after a successful issue to `samplePhone` with draw `0`. -/
def issuedStore : Store := (sendOTP allUp sampleClock 0 Store.empty samplePhone none).store

/-- Four fresh `verifyOTP` invocations for `samplePhone`, each supplying the
code `000000`, each reading the clock at 2000. -/
def fourWrongGuesses : List Invocation :=
  List.replicate 4 (Invocation.fresh laterClock samplePhone "000000")

/-! ## Theorems -/

/-! ### Strings and the collection -/

theorem truthy_of_ne {s : String} (h : s ≠ "") : truthy s = true := by
  simp [truthy, h]

theorem Store.set_same (s : Store) (k : String) (d : OTPRecord) : s.set k d k = some d := by
  simp [Store.set]

theorem Store.set_other (s : Store) (k q : String) (d : OTPRecord) (h : q ≠ k) :
    s.set k d q = s q := by
  simp [Store.set, h]

theorem Store.delete_same (s : Store) (k : String) : s.delete k k = none := by
  simp [Store.delete]

theorem Store.delete_other (s : Store) (k q : String) (h : q ≠ k) : s.delete k q = s q := by
  simp [Store.delete, h]

/-! ### The validator -/

theorem digit_matchChar_iff (c : Char) : Atom.digit.matchChar c = true ↔ c ∈ asciiDigits := by
  constructor
  · intro h
    simp only [Atom.matchChar, decide_eq_true_eq] at h
    obtain ⟨h1, h2⟩ := h
    have h1' : 48 ≤ c.toNat := h1
    have h2' : c.toNat ≤ 57 := h2
    have hc : c = Char.ofNat c.toNat := by simp
    generalize c.toNat = n at *
    subst hc
    interval_cases n <;> decide
  · intro h
    simp only [asciiDigits, List.mem_cons, List.mem_singleton] at h
    simp at h
    rcases h with h | h | h | h | h | h | h | h | h | h <;> subst h <;> decide

theorem matchAnchored_lit (c : Char) (as : List Atom) (l : List Char) :
    matchAnchored (.lit c :: as) l = true ↔ ∃ t, l = c :: t ∧ matchAnchored as t = true := by
  cases l with
  | nil => simp [matchAnchored]
  | cons x t =>
    simp only [matchAnchored, Atom.matchChar, Bool.and_eq_true, beq_iff_eq, List.cons.injEq]
    constructor
    · rintro ⟨rfl, h⟩; exact ⟨t, ⟨rfl, rfl⟩, h⟩
    · rintro ⟨_, ⟨rfl, rfl⟩, h⟩; exact ⟨rfl, h⟩

theorem matchAnchored_oneOf (cs : List Char) (as : List Atom) (l : List Char) :
    matchAnchored (.oneOf cs :: as) l = true ↔
      ∃ d t, l = d :: t ∧ d ∈ cs ∧ matchAnchored as t = true := by
  cases l with
  | nil => simp [matchAnchored]
  | cons x t =>
    simp only [matchAnchored, Atom.matchChar, Bool.and_eq_true, List.contains, List.elem_eq_mem,
      decide_eq_true_eq, List.cons.injEq]
    constructor
    · rintro ⟨hx, h⟩; exact ⟨x, t, ⟨rfl, rfl⟩, hx, h⟩
    · rintro ⟨_, _, ⟨rfl, rfl⟩, hx, h⟩; exact ⟨hx, h⟩

theorem matchAnchored_digits (n : Nat) (l : List Char) :
    matchAnchored (List.replicate n .digit) l = true ↔
      l.length = n ∧ ∀ c ∈ l, c ∈ asciiDigits := by
  induction n generalizing l with
  | zero => cases l <;> simp [matchAnchored]
  | succ n ih =>
    cases l with
    | nil => simp [matchAnchored, List.replicate]
    | cons x t =>
      simp only [List.replicate, matchAnchored, Bool.and_eq_true, ih, digit_matchChar_iff,
        List.length_cons, List.mem_cons, forall_eq_or_imp]
      constructor
      · rintro ⟨h1, h2, h3⟩; exact ⟨by omega, h1, h3⟩
      · rintro ⟨h1, h2, h3⟩; exact ⟨h2, by omega, h3⟩

theorem isTanzaniaMobile_iff (s : String) :
    IsTanzaniaMobile s ↔
      ∃ d rest, s.data = '+' :: '2' :: '5' :: '5' :: d :: rest ∧ (d = '6' ∨ d = '7') ∧
        rest.length = 8 ∧ ∀ c ∈ rest, c ∈ asciiDigits := by
  unfold IsTanzaniaMobile
  constructor
  · rintro ⟨hlen, htake, h4, hl, hall⟩
    rw [String.length] at hlen
    rcases hd : s.data with _ | ⟨c0, _ | ⟨c1, _ | ⟨c2, _ | ⟨c3, _ | ⟨c4, rest⟩⟩⟩⟩⟩ <;>
      rw [hd] at hlen htake h4 hl hall <;> simp at hlen
    simp at htake h4 hl hall
    obtain ⟨rfl, rfl, rfl, rfl⟩ := htake
    exact ⟨c4, rest, rfl, h4, hl, hall⟩
  · rintro ⟨d, rest, h, hd, hl, hall⟩
    rw [String.length, h]
    simp [hl]
    exact ⟨hd, hall⟩

theorem validate_iff (s : String) : validateTanzaniaPhone s = true ↔ IsTanzaniaMobile s := by
  rw [isTanzaniaMobile_iff]
  unfold validateTanzaniaPhone tzPhoneRegex
  simp only [List.cons_append, List.nil_append, matchAnchored_lit, matchAnchored_oneOf,
    matchAnchored_digits]
  constructor
  · rintro ⟨t1, h1, t2, h2, t3, h3, t4, h4, d, t5, h5, hd, hl, hall⟩
    subst h5 h4 h3 h2
    exact ⟨d, t5, h1, by simpa using hd, hl, hall⟩
  · rintro ⟨d, rest, h, hd, hl, hall⟩
    exact ⟨_, h, _, rfl, _, rfl, _, rfl, d, rest, rfl, by simpa using hd, hl, hall⟩

theorem valid_ne_empty {p : String} (h : validateTanzaniaPhone p = true) : p ≠ "" := by
  rintro rfl
  exact absurd h (by decide)

/-! ### The code generator -/

theorem toDigitsCore_ne_nil (b f n : Nat) (ds : List Char) (h : ds ≠ []) :
    Nat.toDigitsCore b f n ds ≠ [] := by
  induction f generalizing n ds with
  | zero => simpa [Nat.toDigitsCore] using h
  | succ f ih =>
    simp only [Nat.toDigitsCore]
    split
    · simp
    · exact ih _ _ (by simp)

theorem repr_ne_empty (n : Nat) : Nat.repr n ≠ "" := by
  intro h
  have h2 : (Nat.repr n).data = [] := by rw [h]
  simp only [Nat.repr, Nat.toDigits, List.asString, Nat.toDigitsCore] at h2
  split at h2
  · simp at h2
  · exact toDigitsCore_ne_nil _ _ _ _ (by simp) h2

theorem generateOTP_ne_empty (r : ℚ) : generateOTP r ≠ "" := by
  unfold generateOTP
  cases h : ⌊100000 + r * 900000⌋ with
  | ofNat m => exact repr_ne_empty m
  | negSucc m =>
    intro h2
    have h3 : (toString (Int.negSucc m)).data = [] := by rw [h2]
    simp [toString, instToStringInt] at h3

theorem generateOTP_zero : generateOTP 0 = "100000" := by
  simp [generateOTP]; rfl

/-! ### The branches of verifyOTP -/

theorem verifyOTP_notFound (clk : Clock) (store : Store) (p c : String)
    (hp : p ≠ "") (hc : c ≠ "") (h : store p = none) :
    verifyOTP clk store p c = ⟨.error errNotFound, store⟩ := by
  simp [verifyOTP, truthy_of_ne hp, truthy_of_ne hc, h]

theorem verifyOTP_expired (clk : Clock) (store : Store) (p c : String) (d : OTPRecord)
    (hp : p ≠ "") (hc : c ≠ "") (h : store p = some d) (hexp : d.expiresAt < clk.now) :
    verifyOTP clk store p c = ⟨.error errExpired, store.delete p⟩ := by
  simp [verifyOTP, truthy_of_ne hp, truthy_of_ne hc, h, hexp]

theorem verifyOTP_used (clk : Clock) (store : Store) (p c : String) (d : OTPRecord)
    (hp : p ≠ "") (hc : c ≠ "") (h : store p = some d) (hexp : clk.now ≤ d.expiresAt)
    (hv : d.verified = true) :
    verifyOTP clk store p c = ⟨.error errUsed, store⟩ := by
  have hexp2 : ¬ d.expiresAt < clk.now := by omega
  simp [verifyOTP, truthy_of_ne hp, truthy_of_ne hc, h, hexp2, hv]

theorem verifyOTP_exhausted (clk : Clock) (store : Store) (p c : String) (d : OTPRecord)
    (hp : p ≠ "") (hc : c ≠ "") (h : store p = some d) (hexp : clk.now ≤ d.expiresAt)
    (hv : d.verified = false) (ha : 3 ≤ d.attempts) :
    verifyOTP clk store p c = ⟨.error errExhausted, store.delete p⟩ := by
  have hexp2 : ¬ d.expiresAt < clk.now := by omega
  simp [verifyOTP, truthy_of_ne hp, truthy_of_ne hc, h, hexp2, hv, ha]

theorem verifyOTP_mismatch (clk : Clock) (store : Store) (p c : String) (d : OTPRecord)
    (hp : p ≠ "") (hc : c ≠ "") (h : store p = some d) (hexp : clk.now ≤ d.expiresAt)
    (hv : d.verified = false) (ha : d.attempts < 3) (hne : c ≠ d.otp) :
    verifyOTP clk store p c = ⟨.error errMismatch, store.set p d.incrementAttempts⟩ := by
  have hexp2 : ¬ d.expiresAt < clk.now := by omega
  have ha2 : ¬ 3 ≤ d.attempts := by omega
  have hne2 : ¬ d.otp = c := fun e => hne e.symm
  simp [verifyOTP, truthy_of_ne hp, truthy_of_ne hc, h, hexp2, hv, ha2, hne2]

theorem verifyOTP_match (clk : Clock) (store : Store) (p : String) (d : OTPRecord)
    (hp : p ≠ "") (hc : d.otp ≠ "") (h : store p = some d) (hexp : clk.now ≤ d.expiresAt)
    (hv : d.verified = false) (ha : d.attempts < 3) :
    verifyOTP clk store p d.otp
      = ⟨.ok ⟨true, "OTP verified successfully", clk.responseTime⟩,
          store.set p (d.markVerified clk.serverTime)⟩ := by
  have hexp2 : ¬ d.expiresAt < clk.now := by omega
  have ha2 : ¬ 3 ≤ d.attempts := by omega
  simp [verifyOTP, truthy_of_ne hp, truthy_of_ne hc, h, hexp2, hv, ha2]

theorem verifyOTP_required (clk : Clock) (store : Store) (p c : String)
    (h : p = "" ∨ c = "") : verifyOTP clk store p c = ⟨.error errRequired, store⟩ := by
  rcases h with h | h <;> simp [verifyOTP, truthy, h]

/-! ### The branches of sendOTP -/

theorem sendOTP_beem (ad : Adapters) (clk : Clock) (r : ℚ) (store : Store) (p : String)
    (cm : Option String) (hv : validateTanzaniaPhone p = true)
    (h1 : ad.sendViaBeem p (composeMessage cm (generateOTP r)) = true) :
    sendOTP ad clk r store p cm
      = ⟨.ok ⟨true, "Beem", "OTP sent successfully via Beem SMS", clk.responseTime⟩,
          store.set p (freshRecord clk (generateOTP r)),
          [⟨.Beem, p, composeMessage cm (generateOTP r)⟩]⟩ := by
  simp [sendOTP, truthy_of_ne (valid_ne_empty hv), hv, h1]

theorem sendOTP_tigo (ad : Adapters) (clk : Clock) (r : ℚ) (store : Store) (p : String)
    (cm : Option String) (hv : validateTanzaniaPhone p = true)
    (h1 : ad.sendViaBeem p (composeMessage cm (generateOTP r)) = false)
    (h2 : ad.sendViaTigo p (composeMessage cm (generateOTP r)) = true) :
    sendOTP ad clk r store p cm
      = ⟨.ok ⟨true, "Tigo", "OTP sent successfully via Tigo SMS", clk.responseTime⟩,
          store.set p (freshRecord clk (generateOTP r)),
          [⟨.Beem, p, composeMessage cm (generateOTP r)⟩,
           ⟨.Tigo, p, composeMessage cm (generateOTP r)⟩]⟩ := by
  simp [sendOTP, truthy_of_ne (valid_ne_empty hv), hv, h1, h2]

theorem sendOTP_twilio (ad : Adapters) (clk : Clock) (r : ℚ) (store : Store) (p : String)
    (cm : Option String) (hv : validateTanzaniaPhone p = true)
    (h1 : ad.sendViaBeem p (composeMessage cm (generateOTP r)) = false)
    (h2 : ad.sendViaTigo p (composeMessage cm (generateOTP r)) = false)
    (h3 : ad.sendViaTwilio p (composeMessage cm (generateOTP r)) = true) :
    sendOTP ad clk r store p cm
      = ⟨.ok ⟨true, "Twilio", "OTP sent successfully via Twilio SMS", clk.responseTime⟩,
          store.set p (freshRecord clk (generateOTP r)),
          [⟨.Beem, p, composeMessage cm (generateOTP r)⟩,
           ⟨.Tigo, p, composeMessage cm (generateOTP r)⟩,
           ⟨.Twilio, p, composeMessage cm (generateOTP r)⟩]⟩ := by
  simp [sendOTP, truthy_of_ne (valid_ne_empty hv), hv, h1, h2, h3]

theorem sendOTP_allFail (ad : Adapters) (clk : Clock) (r : ℚ) (store : Store) (p : String)
    (cm : Option String) (hv : validateTanzaniaPhone p = true)
    (h1 : ad.sendViaBeem p (composeMessage cm (generateOTP r)) = false)
    (h2 : ad.sendViaTigo p (composeMessage cm (generateOTP r)) = false)
    (h3 : ad.sendViaTwilio p (composeMessage cm (generateOTP r)) = false) :
    sendOTP ad clk r store p cm
      = ⟨.error ⟨.internal, "Failed to send SMS via all providers. Please try again later."⟩,
          store,
          [⟨.Beem, p, composeMessage cm (generateOTP r)⟩,
           ⟨.Tigo, p, composeMessage cm (generateOTP r)⟩,
           ⟨.Twilio, p, composeMessage cm (generateOTP r)⟩]⟩ := by
  simp [sendOTP, truthy_of_ne (valid_ne_empty hv), hv, h1, h2, h3]

theorem sendOTP_invalid (ad : Adapters) (clk : Clock) (r : ℚ) (store : Store) (p : String)
    (cm : Option String) (hv : validateTanzaniaPhone p = false) :
    (sendOTP ad clk r store p cm).store = store ∧
    (sendOTP ad clk r store p cm).calls = [] ∧
    (sendOTP ad clk r store p cm).result.toBool = false := by
  unfold sendOTP
  by_cases ht : truthy p = true
  · simp [ht, hv, Except.toBool]
  · simp [ht, Except.toBool]

/-- A successful `sendOTP` had a valid recipient and wrote the fresh record. -/
theorem sendOTP_ok_inv (ad : Adapters) (clk : Clock) (r : ℚ) (store : Store) (p : String)
    (cm : Option String) (h : (sendOTP ad clk r store p cm).result.toBool = true) :
    validateTanzaniaPhone p = true ∧
    (sendOTP ad clk r store p cm).store = store.set p (freshRecord clk (generateOTP r)) := by
  cases hv : validateTanzaniaPhone p with
  | false => rw [(sendOTP_invalid ad clk r store p cm hv).2.2] at h; exact absurd h (by decide)
  | true =>
    refine ⟨rfl, ?_⟩
    cases h1 : ad.sendViaBeem p (composeMessage cm (generateOTP r)) with
    | true => rw [sendOTP_beem ad clk r store p cm hv h1]
    | false =>
      cases h2 : ad.sendViaTigo p (composeMessage cm (generateOTP r)) with
      | true => rw [sendOTP_tigo ad clk r store p cm hv h1 h2]
      | false =>
        cases h3 : ad.sendViaTwilio p (composeMessage cm (generateOTP r)) with
        | true => rw [sendOTP_twilio ad clk r store p cm hv h1 h2 h3]
        | false =>
          rw [sendOTP_allFail ad clk r store p cm hv h1 h2 h3] at h
          simp [Except.toBool] at h

/-- A `sendOTP` that does not succeed leaves the collection as it was. -/
theorem sendOTP_fail_store (ad : Adapters) (clk : Clock) (r : ℚ) (store : Store) (p : String)
    (cm : Option String) (h : (sendOTP ad clk r store p cm).result.toBool = false) :
    (sendOTP ad clk r store p cm).store = store := by
  cases hv : validateTanzaniaPhone p with
  | false => exact (sendOTP_invalid ad clk r store p cm hv).1
  | true =>
    cases h1 : ad.sendViaBeem p (composeMessage cm (generateOTP r)) with
    | true => rw [sendOTP_beem ad clk r store p cm hv h1] at h; simp [Except.toBool] at h
    | false =>
      cases h2 : ad.sendViaTigo p (composeMessage cm (generateOTP r)) with
      | true => rw [sendOTP_tigo ad clk r store p cm hv h1 h2] at h; simp [Except.toBool] at h
      | false =>
        cases h3 : ad.sendViaTwilio p (composeMessage cm (generateOTP r)) with
        | true =>
          rw [sendOTP_twilio ad clk r store p cm hv h1 h2 h3] at h
          simp [Except.toBool] at h
        | false => rw [sendOTP_allFail ad clk r store p cm hv h1 h2 h3]

theorem issuedStore_eq :
    issuedStore = Store.empty.set samplePhone ⟨"100000", 1001, 601000, 0, false, none⟩ := by
  have hv : validateTanzaniaPhone samplePhone = true := by decide
  rw [issuedStore, sendOTP_beem allUp sampleClock 0 Store.empty samplePhone none hv rfl,
    generateOTP_zero]
  rfl

theorem verifyOTP_unexpired_ne_expired (clk : Clock) (store : Store) (p c : String)
    (d : OTPRecord) (hp : p ≠ "") (hc : c ≠ "") (h : store p = some d)
    (hexp : clk.now ≤ d.expiresAt) :
    (verifyOTP clk store p c).result ≠ .error errExpired ∧
    ((verifyOTP clk store p c).store p = none → 3 ≤ d.attempts) := by
  cases hv : d.verified with
  | true =>
    rw [verifyOTP_used clk store p c d hp hc h hexp hv]
    exact ⟨by simp [errUsed, errExpired], fun h2 => by simp [h] at h2⟩
  | false =>
    by_cases ha : 3 ≤ d.attempts
    · rw [verifyOTP_exhausted clk store p c d hp hc h hexp hv ha]
      exact ⟨by simp [errExhausted, errExpired], fun _ => ha⟩
    · by_cases hne : c = d.otp
      · subst hne
        rw [verifyOTP_match clk store p d hp hc h hexp hv (by omega)]
        exact ⟨by simp, fun h2 => by simp [Store.set] at h2⟩
      · rw [verifyOTP_mismatch clk store p c d hp hc h hexp hv (by omega) hne]
        exact ⟨by simp [errMismatch, errExpired], fun h2 => by simp [Store.set] at h2⟩

theorem toBool_of_ok {ε α : Type} {x : Except ε α} {a : α} (h : x = .ok a) :
    x.toBool = true := by
  subst h; rfl

theorem sendOTP_ok_of_outcome (ad : Adapters) (clk : Clock) (r : ℚ) (store : Store)
    (p : String) (cm : Option String) (hv : validateTanzaniaPhone p = true) (pr : Provider)
    (h : ad.outcome pr p (composeMessage cm (generateOTP r)) = true) :
    (sendOTP ad clk r store p cm).result.toBool = true := by
  cases h1 : ad.sendViaBeem p (composeMessage cm (generateOTP r)) with
  | true => rw [sendOTP_beem ad clk r store p cm hv h1]; rfl
  | false =>
    cases h2 : ad.sendViaTigo p (composeMessage cm (generateOTP r)) with
    | true => rw [sendOTP_tigo ad clk r store p cm hv h1 h2]; rfl
    | false =>
      cases h3 : ad.sendViaTwilio p (composeMessage cm (generateOTP r)) with
      | true => rw [sendOTP_twilio ad clk r store p cm hv h1 h2 h3]; rfl
      | false => cases pr <;> simp [Adapters.outcome, h1, h2, h3] at h

theorem no_call_after_success (f : AdapterCall → Bool) (l : List AdapterCall)
    (hfail : ∀ c ∈ l.dropLast, f c = false) :
    ∀ pre c post, l = pre ++ c :: post → f c = true → post = [] := by
  intro pre c post hl hc
  by_contra hpost
  have hmem : c ∈ l.dropLast := by
    obtain ⟨x, xs, rfl⟩ := List.exists_cons_of_ne_nil hpost
    rw [hl, List.dropLast_append_of_ne_nil _ (by simp)]
    simp [List.dropLast]
  rw [hfail c hmem] at hc
  exact absurd hc (by decide)

/-! ### Case analysis of verifyOTP -/

theorem verifyOTP_cases (clk : Clock) (s : Store) (p c : String) :
    verifyOTP clk s p c = ⟨.error errRequired, s⟩ ∨
    verifyOTP clk s p c = ⟨.error errNotFound, s⟩ ∨
    verifyOTP clk s p c = ⟨.error errExpired, s.delete p⟩ ∨
    verifyOTP clk s p c = ⟨.error errUsed, s⟩ ∨
    verifyOTP clk s p c = ⟨.error errExhausted, s.delete p⟩ ∨
    (∃ d, s p = some d ∧ d.attempts < 3 ∧
      verifyOTP clk s p c = ⟨.error errMismatch, s.set p d.incrementAttempts⟩) ∨
    (∃ d, s p = some d ∧
      verifyOTP clk s p c = ⟨.ok ⟨true, "OTP verified successfully", clk.responseTime⟩,
        s.set p (d.markVerified clk.serverTime)⟩) := by
  by_cases hp : p = ""
  · exact .inl (verifyOTP_required clk s p c (.inl hp))
  by_cases hc : c = ""
  · exact .inl (verifyOTP_required clk s p c (.inr hc))
  cases h : s p with
  | none => exact .inr (.inl (verifyOTP_notFound clk s p c hp hc h))
  | some d =>
    by_cases hexp : d.expiresAt < clk.now
    · exact .inr (.inr (.inl (verifyOTP_expired clk s p c d hp hc h hexp)))
    have hexp2 : clk.now ≤ d.expiresAt := by omega
    cases hv : d.verified with
    | true => exact .inr (.inr (.inr (.inl (verifyOTP_used clk s p c d hp hc h hexp2 hv))))
    | false =>
      by_cases ha : 3 ≤ d.attempts
      · exact .inr (.inr (.inr (.inr (.inl
          (verifyOTP_exhausted clk s p c d hp hc h hexp2 hv ha)))))
      by_cases hne : c = d.otp
      · subst hne
        exact .inr (.inr (.inr (.inr (.inr (.inr
          ⟨d, rfl, verifyOTP_match clk s p d hp hc h hexp2 hv (by omega)⟩)))))
      · exact .inr (.inr (.inr (.inr (.inr (.inl
          ⟨d, rfl, by omega, verifyOTP_mismatch clk s p c d hp hc h hexp2 hv (by omega) hne⟩)))))

theorem verifyOTP_other (clk : Clock) (s : Store) (p c k : String) (hk : k ≠ p) :
    (verifyOTP clk s p c).store k = s k := by
  rcases verifyOTP_cases clk s p c with h | h | h | h | h | ⟨d, -, -, h⟩ | ⟨d, -, h⟩ <;>
    simp [h, Store.set, Store.delete, hk]

/-- A `verifyOTP` call never lowers `attempts` of a document it leaves in place. -/
theorem verifyOTP_attempts_mono (clk : Clock) (s : Store) (p c k : String) (d d2 : OTPRecord)
    (h1 : s k = some d) (h2 : (verifyOTP clk s p c).store k = some d2) :
    d.attempts ≤ d2.attempts := by
  by_cases hk : k = p
  · subst hk
    rcases verifyOTP_cases clk s k c with h | h | h | h | h | ⟨e, he, -, h⟩ | ⟨e, he, h⟩ <;>
      rw [h] at h2 <;> simp [Store.set, Store.delete, h1] at h2
    · simp [h2]
    · simp [h2]
    · simp [h2]
    · rw [h1] at he
      injection he with he
      subst he
      rw [← h2]
      simp [OTPRecord.incrementAttempts]
    · rw [h1] at he
      injection he with he
      subst he
      rw [← h2]
      simp [OTPRecord.markVerified]
  · rw [verifyOTP_other clk s p c k hk, h1] at h2
    injection h2 with h2
    simp [h2]

/-! ### Sequential executions -/

theorem attemptsInv_send (p : String) (s : Store) (n : Nat) (ad : Adapters) (clk : Clock)
    (r : ℚ) (q : String) (cm : Option String) (h : AttemptsInv p s n) :
    AttemptsInv p (sendOTP ad clk r s q cm).store
      (if q = p ∧ (sendOTP ad clk r s q cm).result.toBool = true then 0 else n) := by
  cases hok : (sendOTP ad clk r s q cm).result.toBool with
  | false =>
    rw [sendOTP_fail_store ad clk r s q cm hok]
    simpa using h
  | true =>
    rw [(sendOTP_ok_inv ad clk r s q cm hok).2]
    by_cases hq : q = p
    · subst hq
      intro d hd
      rw [Store.set_same] at hd
      injection hd with hd
      subst hd
      simp [freshRecord]
    · intro d hd
      rw [Store.set_other _ _ _ _ (Ne.symm hq)] at hd
      simpa [hq] using h d hd

theorem attemptsInv_verify (p : String) (s : Store) (n : Nat) (clk : Clock) (q c : String)
    (h : AttemptsInv p s n) :
    AttemptsInv p (verifyOTP clk s q c).store
      (if q = p ∧ isMismatch (verifyOTP clk s q c).result = true then n + 1 else n) := by
  by_cases hq : q = p
  · subst hq
    rcases verifyOTP_cases clk s q c with e | e | e | e | e | ⟨d, hd, ha, e⟩ | ⟨d, hd, e⟩ <;>
      rw [e] <;> intro d2 hd2
    · simpa [isMismatch, errRequired, errMismatch] using h d2 hd2
    · simpa [isMismatch, errNotFound, errMismatch] using h d2 hd2
    · simp [Store.delete] at hd2
    · simpa [isMismatch, errUsed, errMismatch] using h d2 hd2
    · simp [Store.delete] at hd2
    · simp only [Store.set_same] at hd2
      injection hd2 with hd2
      subst hd2
      have := h d hd
      simp [isMismatch, OTPRecord.incrementAttempts]
      omega
    · simp only [Store.set_same] at hd2
      injection hd2 with hd2
      subst hd2
      simpa [isMismatch, OTPRecord.markVerified] using h d hd
  · intro d hd
    rw [verifyOTP_other clk s q c p (Ne.symm hq)] at hd
    simpa [hq] using h d hd

theorem attemptsInv_run (p : String) (calls : List Call) :
    ∀ (s : Store) (n : Nat), AttemptsInv p s n →
      AttemptsInv p (runCalls s calls) (mismatchCount p s calls n) := by
  induction calls with
  | nil => intro s n h; simpa [runCalls, mismatchCount] using h
  | cons c rest ih =>
    intro s n h
    cases c with
    | send ad clk r q cm =>
      have := ih _ _ (attemptsInv_send p s n ad clk r q cm h)
      simpa [runCalls, mismatchCount, Call.exec] using this
    | verify clk q c =>
      have := ih _ _ (attemptsInv_verify p s n clk q c h)
      simpa [runCalls, mismatchCount, Call.exec] using this

/-! ### Interleaved executions -/

/-- Run without interruption, the two pieces of an invocation are `verifyOTP`. -/
theorem step_step_eq_verifyOTP (clk : Clock) (s : Store) (p c : String) :
    (((Invocation.fresh clk p c).step s).1.step ((Invocation.fresh clk p c).step s).2).2
      = (verifyOTP clk s p c).store ∧
    (((Invocation.fresh clk p c).step s).1.step ((Invocation.fresh clk p c).step s).2).1.phase
      = .done (verifyOTP clk s p c).result := by
  unfold verifyOTP
  by_cases hreq : (!truthy p || !truthy c) = true
  · simp [Invocation.fresh, Invocation.step, hreq]
  · cases h : s p with
    | none => simp [Invocation.fresh, Invocation.step, hreq, afterGet, h]
    | some d =>
      by_cases h1 : clk.now > d.expiresAt
      · simp [Invocation.fresh, Invocation.step, hreq, afterGet, h, h1]
      by_cases h2 : d.verified = true
      · simp [Invocation.fresh, Invocation.step, hreq, afterGet, h, h1, h2]
      by_cases h3 : d.attempts ≥ 3
      · simp [Invocation.fresh, Invocation.step, hreq, afterGet, h, h1, h2, h3]
      by_cases h4 : d.otp ≠ c
      · simp [Invocation.fresh, Invocation.step, hreq, afterGet, h, h1, h2, h3, h4]
      · simp [Invocation.fresh, Invocation.step, hreq, afterGet, h, h1, h2, h3, h4]

theorem stepAt_length (cfg : Config) (i : Nat) :
    (cfg.stepAt i).calls.length = cfg.calls.length := by
  unfold Config.stepAt
  split <;> simp

theorem run_length (schedule : List Nat) :
    ∀ cfg : Config, (cfg.run schedule).calls.length = cfg.calls.length := by
  induction schedule with
  | nil => intro cfg; rfl
  | cons i rest ih =>
    intro cfg
    have := ih (cfg.stepAt i)
    simpa [Config.run, stepAt_length] using this

theorem afterGet_stepsLeft (clk : Clock) (c : String) (snap : Option OTPRecord) :
    (afterGet clk c snap).stepsLeft ≤ 1 := by
  unfold afterGet
  split
  · simp [Phase.stepsLeft]
  · split_ifs <;> simp [Phase.stepsLeft]

theorem step_stepsLeft (inv : Invocation) (s : Store) :
    (inv.step s).1.phase.stepsLeft ≤ inv.phase.stepsLeft - 1 := by
  unfold Invocation.step
  split
  · next h =>
    rw [h]
    split_ifs
    · simp [Phase.stepsLeft]
    · simpa [Phase.stepsLeft] using afterGet_stepsLeft _ _ _
  · next h => simp [h, Phase.stepsLeft]
  · next h => split <;> simp [h, Phase.stepsLeft]
  · next h => split <;> simp [h, Phase.stepsLeft]
  · next h => simp [h, Phase.stepsLeft]

/-- After one scheduled piece, invocation `j` has at most as many pieces left
as before, and one fewer when it was the one scheduled. -/
theorem stepAt_stepsLeft (cfg : Config) (i j : Nat) (inv : Invocation)
    (h : (cfg.stepAt i).calls[j]? = some inv) :
    ∃ inv0, cfg.calls[j]? = some inv0 ∧
      inv.phase.stepsLeft ≤ inv0.phase.stepsLeft - (if i = j then 1 else 0) := by
  unfold Config.stepAt at h
  split at h
  · next hnone =>
    by_cases hij : i = j
    · subst hij
      rw [hnone] at h
      exact absurd h (by simp)
    · exact ⟨inv, h, by simp [hij]⟩
  · next a ha =>
    simp only at h
    by_cases hij : i = j
    · subst hij
      have hlt : i < cfg.calls.length := by
        rcases List.getElem?_eq_some.1 ha with ⟨hlt, -⟩
        exact hlt
      rw [List.getElem?_set_self hlt] at h
      injection h with h
      subst h
      exact ⟨a, ha, by simpa using step_stepsLeft a cfg.store⟩
    · rw [List.getElem?_set_ne hij] at h
      exact ⟨inv, h, by simp [hij]⟩

theorem run_stepsLeft (schedule : List Nat) :
    ∀ (cfg : Config) (j : Nat) (inv : Invocation), (cfg.run schedule).calls[j]? = some inv →
      ∃ inv0, cfg.calls[j]? = some inv0 ∧
        inv.phase.stepsLeft ≤ inv0.phase.stepsLeft - schedule.count j := by
  induction schedule with
  | nil => intro cfg j inv h; exact ⟨inv, h, by simp⟩
  | cons i rest ih =>
    intro cfg j inv h
    obtain ⟨inv1, h1, hle1⟩ := ih (cfg.stepAt i) j inv (by simpa [Config.run] using h)
    obtain ⟨inv0, h0, hle0⟩ := stepAt_stepsLeft cfg i j inv1 h1
    refine ⟨inv0, h0, ?_⟩
    rw [List.count_cons]
    by_cases hij : i = j
    · simp [hij] at hle0 ⊢; omega
    · simp [hij] at hle0 ⊢; omega

theorem isDone_of_stepsLeft {ph : Phase} (h : ph.stepsLeft = 0) : ph.isDone = true := by
  cases ph <;> simp [Phase.stepsLeft] at h
  rfl

/-- A schedule that gives every invocation at least two turns finishes them all. -/
theorem run_all_done (cfg : Config) (schedule : List Nat)
    (hfair : ∀ i, i < cfg.calls.length → 2 ≤ schedule.count i) :
    ∀ inv ∈ (cfg.run schedule).calls, inv.phase.isDone = true := by
  intro inv hmem
  obtain ⟨j, hj, hget⟩ := List.getElem_of_mem hmem
  have hj2 : j < cfg.calls.length := by rw [run_length] at hj; exact hj
  have hsome : (cfg.run schedule).calls[j]? = some inv := by
    rw [List.getElem?_eq_getElem hj, hget]
  obtain ⟨inv0, -, hle⟩ := run_stepsLeft schedule cfg j inv hsome
  have h2 := hfair j hj2
  have hb : inv0.phase.stepsLeft ≤ 2 := by cases inv0.phase <;> simp [Phase.stepsLeft]
  exact isDone_of_stepsLeft (by omega)

theorem countP_lt_length_of_mem {α : Type} (q : α → Bool) (l : List α) (a : α) (ha : a ∈ l)
    (hq : q a = false) : l.countP q < l.length := by
  rcases Nat.lt_or_ge (l.countP q) l.length with h | h
  · exact h
  · have heq : l.countP q = l.length := Nat.le_antisymm (List.countP_le_length q) h
    have := (List.countP_eq_length.1 heq) a ha
    rw [hq] at this
    exact absurd this (by decide)

theorem raceInv_stepAt (p : String) (d0 : OTPRecord) (hp : p ≠ "") (hv : d0.verified = false)
    (cfg : Config) (i : Nat) (hN : cfg.calls.length ≤ 3) (h : RaceInv p d0 cfg) :
    RaceInv p d0 (cfg.stepAt i) := by
  obtain ⟨hgood, hstore⟩ := h
  unfold Config.stepAt
  split
  · exact ⟨hgood, hstore⟩
  · next a ha =>
    obtain ⟨hlt, hget⟩ := List.getElem?_eq_some.1 ha
    have hmem : a ∈ cfg.calls := by rw [← hget]; exact List.getElem_mem hlt
    obtain ⟨hph, hc1, hc2, hclk, hphase⟩ := hgood a hmem
    have hset : ∀ b : Invocation, WrongGuess p d0 b → ∀ inv ∈ cfg.calls.set i b,
        WrongGuess p d0 inv := by
      intro b hb inv hin
      rcases List.mem_or_eq_of_mem_set hin with h1 | h1
      · exact hgood inv h1
      · rw [h1]; exact hb
    have hold : cfg.calls[i] = a := hget
    rcases hphase with hs | hs | hs
    · -- the read
      have hk : cfg.calls.countP (fun inv => inv.phase.isDoneMismatch) < cfg.calls.length :=
        countP_lt_length_of_mem _ _ a hmem (by simp [hs, Phase.isDoneMismatch])
      have hstep : a.step cfg.store = ({ a with phase := .incrementing }, cfg.store) := by
        have h3 : ¬ 3 ≤ cfg.calls.countP (fun inv => inv.phase.isDoneMismatch) := by omega
        have h4 : ¬ d0.expiresAt < a.clk.now := by omega
        have h5 : ¬ d0.otp = a.otp := fun e => hc2 e.symm
        simp [Invocation.step, hs, truthy_of_ne hc1, hph, truthy_of_ne hp, afterGet, hstore,
          h3, h4, h5, hv]
      rw [hstep]
      refine ⟨hset _ ⟨hph, hc1, hc2, hclk, .inr (.inl rfl)⟩, ?_⟩
      simp only
      rw [hstore, List.countP_set _ _ _ _ hlt, hold]
      simp [hs, Phase.isDoneMismatch]
    · -- the increment
      have hstep : a.step cfg.store = ({ a with phase := .done (.error errMismatch) },
          cfg.store.set p
            { d0 with attempts := cfg.calls.countP (fun inv => inv.phase.isDoneMismatch) + 1 }) := by
        simp [Invocation.step, hs, hph, hstore, OTPRecord.incrementAttempts]
      rw [hstep]
      refine ⟨hset _ ⟨hph, hc1, hc2, hclk, .inr (.inr rfl)⟩, ?_⟩
      simp only
      rw [Store.set_same, List.countP_set _ _ _ _ hlt, hold]
      simp [hs, Phase.isDoneMismatch, isMismatch, OTPRecord.incrementAttempts]
    · -- already finished
      have hstep : a.step cfg.store = (a, cfg.store) := by
        simp [Invocation.step, hs]
      have hpos : 0 < cfg.calls.countP (fun inv => inv.phase.isDoneMismatch) :=
        List.countP_pos_iff.2 ⟨a, hmem, by simp [hs, Phase.isDoneMismatch, isMismatch]⟩
      rw [hstep]
      refine ⟨hset _ ⟨hph, hc1, hc2, hclk, .inr (.inr hs)⟩, ?_⟩
      simp only
      rw [hstore, List.countP_set _ _ _ _ hlt, hold]
      generalize cfg.calls.countP (fun inv => inv.phase.isDoneMismatch) = k at hpos ⊢
      simp [hs, Phase.isDoneMismatch, isMismatch]
      omega

theorem raceInv_run (p : String) (d0 : OTPRecord) (hp : p ≠ "") (hv : d0.verified = false)
    (schedule : List Nat) :
    ∀ cfg : Config, cfg.calls.length ≤ 3 → RaceInv p d0 cfg → RaceInv p d0 (cfg.run schedule) := by
  induction schedule with
  | nil => intro cfg _ h; exact h
  | cons i rest ih =>
    intro cfg hN h
    have := ih (cfg.stepAt i) (by rw [stepAt_length]; exact hN)
      (raceInv_stepAt p d0 hp hv cfg i hN h)
    simpa [Config.run] using this

/-- Up to three racing wrong guesses are counted exactly. For at most three
concurrent `verifyOTP` calls supplying wrong codes against one unexpired
document with `attempts = 0`, under every interleaving of their reads and
writes, the stored `attempts` never exceeds the number of calls and equals it
once every call has finished; every interleaving that gives each call its two
steps finishes them all. -/
theorem interleaved_wrong_guesses (store : Store) (p : String) (d0 : OTPRecord)
    (calls : List Invocation) (schedule : List Nat)
    (hp : p ≠ "") (hd : store p = some d0) (ha : d0.attempts = 0) (hv : d0.verified = false)
    (hN : calls.length ≤ 3)
    (hcalls : ∀ inv ∈ calls, inv.phase = .start ∧ inv.phoneNumber = p ∧ inv.otp ≠ "" ∧
      inv.otp ≠ d0.otp ∧ inv.clk.now ≤ d0.expiresAt) :
    ∃ d, (Config.run ⟨store, calls⟩ schedule).store p = some d ∧
      d.attempts ≤ calls.length ∧ d.attempts ≤ 3 ∧
      ((∀ inv ∈ (Config.run ⟨store, calls⟩ schedule).calls, inv.phase.isDone = true) →
        d.attempts = calls.length) ∧
      ((∀ i, i < calls.length → 2 ≤ schedule.count i) →
        ∀ inv ∈ (Config.run ⟨store, calls⟩ schedule).calls, inv.phase.isDone = true) := by
  have h0 : RaceInv p d0 ⟨store, calls⟩ := by
    refine ⟨fun inv hin => ?_, ?_⟩
    · obtain ⟨h1, h2, h3, h4, h5⟩ := hcalls inv hin
      exact ⟨h2, h3, h4, h5, .inl h1⟩
    · have hz : calls.countP (fun inv => inv.phase.isDoneMismatch) = 0 := by
        rw [List.countP_eq_zero]
        intro inv hin
        simp [(hcalls inv hin).1, Phase.isDoneMismatch]
      simp only [hz, hd, ← ha]
  obtain ⟨hgood, hstore⟩ := raceInv_run p d0 hp hv schedule ⟨store, calls⟩ hN h0
  have hlen := run_length schedule ⟨store, calls⟩
  simp only at hlen
  have hle : (Config.run ⟨store, calls⟩ schedule).calls.countP
      (fun inv => inv.phase.isDoneMismatch) ≤ calls.length := by
    rw [← hlen]; exact List.countP_le_length _
  refine ⟨_, hstore, hle, by simp only; omega, fun hdone => ?_,
    fun hfair => run_all_done ⟨store, calls⟩ schedule hfair⟩
  simp only
  rw [← hlen, List.countP_eq_length]
  intro inv hin
  have hd1 := hdone inv hin
  rcases (hgood inv hin).2.2.2.2 with h | h | h <;>
    simp [h, Phase.isDone, Phase.isDoneMismatch, isMismatch] at hd1 ⊢

/-- Three wrong guesses whose reads all come before their writes end with
`attempts = 3`. -/
theorem interleaved_wrong_guesses_witness :
    ∃ d, (Config.run
        ⟨issuedStore, [Invocation.fresh laterClock samplePhone "111111",
          Invocation.fresh laterClock samplePhone "222222",
          Invocation.fresh laterClock samplePhone "333333"]⟩
        [0, 1, 2, 0, 1, 2]).store samplePhone = some d ∧ d.attempts = 3 :=
  have h := interleaved_wrong_guesses issuedStore samplePhone
    ⟨"100000", 1001, 601000, 0, false, none⟩
    [Invocation.fresh laterClock samplePhone "111111",
      Invocation.fresh laterClock samplePhone "222222",
      Invocation.fresh laterClock samplePhone "333333"]
    [0, 1, 2, 0, 1, 2] (by decide) (by rw [issuedStore_eq]; decide) rfl rfl (by decide)
    (by
      intro inv hin
      simp only [List.mem_cons, List.mem_singleton, List.not_mem_nil, or_false] at hin
      rcases hin with rfl | rfl | rfl <;>
        exact ⟨rfl, rfl, by decide, by decide, by decide⟩)
  h.elim fun d hd => ⟨d, hd.1, hd.2.2.2.1 (hd.2.2.2.2 (by decide))⟩

/-! ### The range of the code generator -/

theorem toDigitsCore_step (fuel n : Nat) (ds : List Char) (h : 0 < fuel) :
    Nat.toDigitsCore 10 fuel n ds =
      if n / 10 = 0 then Nat.digitChar (n % 10) :: ds
      else Nat.toDigitsCore 10 (fuel - 1) (n / 10) (Nat.digitChar (n % 10) :: ds) := by
  cases fuel with
  | zero => omega
  | succ f => simp [Nat.toDigitsCore]

/-- The decimal numeral of a number from 100000 to 999999, digit by digit. -/
theorem repr_six (n : Nat) (h1 : 100000 ≤ n) (h2 : n ≤ 999999) :
    Nat.repr n = String.mk
      [Nat.digitChar (n / 100000), Nat.digitChar (n / 10000 % 10),
       Nat.digitChar (n / 1000 % 10), Nat.digitChar (n / 100 % 10),
       Nat.digitChar (n / 10 % 10), Nat.digitChar (n % 10)] := by
  have e1 : ¬ n / 10 = 0 := by omega
  have e2 : ¬ n / 10 / 10 = 0 := by omega
  have e3 : ¬ n / 10 / 10 / 10 = 0 := by omega
  have e4 : ¬ n / 10 / 10 / 10 / 10 = 0 := by omega
  have e5 : ¬ n / 10 / 10 / 10 / 10 / 10 = 0 := by omega
  have e6 : n / 10 / 10 / 10 / 10 / 10 / 10 = 0 := by omega
  have d1 : n / 10 / 10 / 10 / 10 / 10 % 10 = n / 100000 := by omega
  have d2 : n / 10 / 10 / 10 / 10 % 10 = n / 10000 % 10 := by omega
  have d3 : n / 10 / 10 / 10 % 10 = n / 1000 % 10 := by omega
  have d4 : n / 10 / 10 % 10 = n / 100 % 10 := by omega
  unfold Nat.repr Nat.toDigits
  rw [toDigitsCore_step _ _ _ (by omega), if_neg e1,
    toDigitsCore_step _ _ _ (by omega), if_neg e2,
    toDigitsCore_step _ _ _ (by omega), if_neg e3,
    toDigitsCore_step _ _ _ (by omega), if_neg e4,
    toDigitsCore_step _ _ _ (by omega), if_neg e5,
    toDigitsCore_step _ _ _ (by omega), if_pos e6, d1, d2, d3, d4]
  rfl

theorem digitChar_mem_asciiDigits (k : Nat) (h : k < 10) : Nat.digitChar k ∈ asciiDigits := by
  interval_cases k <;> decide

theorem digitChar_ne_zero (k : Nat) (h0 : 0 < k) (h : k < 10) : Nat.digitChar k ≠ '0' := by
  interval_cases k <;> decide

theorem exists_digitChar_of_mem (c : Char) (h : c ∈ asciiDigits) :
    ∃ k, k < 10 ∧ c = Nat.digitChar k ∧ (c ≠ '0' → 0 < k) := by
  simp only [asciiDigits, List.mem_cons, List.mem_singleton, List.not_mem_nil, or_false] at h
  rcases h with h | h | h | h | h | h | h | h | h | h <;> subst h
  · exact ⟨0, by decide, by decide, fun h => absurd rfl h⟩
  · exact ⟨1, by decide, by decide, fun _ => by decide⟩
  · exact ⟨2, by decide, by decide, fun _ => by decide⟩
  · exact ⟨3, by decide, by decide, fun _ => by decide⟩
  · exact ⟨4, by decide, by decide, fun _ => by decide⟩
  · exact ⟨5, by decide, by decide, fun _ => by decide⟩
  · exact ⟨6, by decide, by decide, fun _ => by decide⟩
  · exact ⟨7, by decide, by decide, fun _ => by decide⟩
  · exact ⟨8, by decide, by decide, fun _ => by decide⟩
  · exact ⟨9, by decide, by decide, fun _ => by decide⟩

/-- The generated code is the decimal numeral of a number from 100000 to
999999. -/
theorem generateOTP_eq_repr (r : ℚ) (h0 : 0 ≤ r) (h1 : r < 1) :
    ∃ n : Nat, 100000 ≤ n ∧ n ≤ 999999 ∧ generateOTP r = Nat.repr n := by
  have hlo : (100000 : Int) ≤ ⌊100000 + r * 900000⌋ := by
    rw [Int.le_floor]
    push_cast
    nlinarith
  have hhi : ⌊100000 + r * 900000⌋ < (1000000 : Int) := by
    rw [Int.floor_lt]
    push_cast
    nlinarith
  obtain ⟨n, hn⟩ := Int.eq_ofNat_of_zero_le (show (0 : Int) ≤ ⌊100000 + r * 900000⌋ by omega)
  refine ⟨n, by omega, by omega, ?_⟩
  unfold generateOTP
  rw [hn]
  rfl

/-- Every number from 100000 to 999999 is generated by some draw. -/
theorem generateOTP_surj (n : Nat) (h1 : 100000 ≤ n) (h2 : n ≤ 999999) :
    ∃ r : ℚ, 0 ≤ r ∧ r < 1 ∧ generateOTP r = Nat.repr n := by
  have c1 : (100000 : ℚ) ≤ (n : ℚ) := by exact_mod_cast h1
  have c2 : (n : ℚ) ≤ 999999 := by exact_mod_cast h2
  refine ⟨((n : ℚ) - 100000) / 900000, ?_, ?_, ?_⟩
  · apply div_nonneg <;> linarith
  · rw [div_lt_one (by norm_num)]; linarith
  · have hx : (100000 : ℚ) + ((n : ℚ) - 100000) / 900000 * 900000 = ((n : Int) : ℚ) := by
      field_simp
    unfold generateOTP
    rw [hx, Int.floor_intCast]
    rfl

/-- A string of 6 decimal digits that does not start with `0` is the numeral of
a number from 100000 to 999999. -/
theorem sixDigit_eq_repr (s : String) (h : IsSixDigitString s)
    (hz : s.data.head? ≠ some '0') :
    ∃ n : Nat, 100000 ≤ n ∧ n ≤ 999999 ∧ s = Nat.repr n := by
  obtain ⟨hlen, hall⟩ := h
  rw [String.length] at hlen
  rcases hd : s.data with _ | ⟨c1, _ | ⟨c2, _ | ⟨c3, _ | ⟨c4, _ | ⟨c5, _ | ⟨c6, _ | ⟨c7, t⟩⟩⟩⟩⟩⟩⟩ <;>
    rw [hd] at hlen hall hz <;> simp at hlen
  simp only [List.mem_cons, List.mem_singleton, List.not_mem_nil, or_false, forall_eq_or_imp,
    forall_eq] at hall
  obtain ⟨m1, m2, m3, m4, m5, m6⟩ := hall
  obtain ⟨k1, b1, rfl, p1⟩ := exists_digitChar_of_mem c1 m1
  obtain ⟨k2, b2, rfl, -⟩ := exists_digitChar_of_mem c2 m2
  obtain ⟨k3, b3, rfl, -⟩ := exists_digitChar_of_mem c3 m3
  obtain ⟨k4, b4, rfl, -⟩ := exists_digitChar_of_mem c4 m4
  obtain ⟨k5, b5, rfl, -⟩ := exists_digitChar_of_mem c5 m5
  obtain ⟨k6, b6, rfl, -⟩ := exists_digitChar_of_mem c6 m6
  have hk1 : 0 < k1 := p1 (by simpa using hz)
  refine ⟨k1 * 100000 + k2 * 10000 + k3 * 1000 + k4 * 100 + k5 * 10 + k6,
    by omega, by omega, ?_⟩
  rw [repr_six _ (by omega) (by omega)]
  have q1 : (k1 * 100000 + k2 * 10000 + k3 * 1000 + k4 * 100 + k5 * 10 + k6) / 100000 = k1 := by
    omega
  have q2 : (k1 * 100000 + k2 * 10000 + k3 * 1000 + k4 * 100 + k5 * 10 + k6) / 10000 % 10
      = k2 := by omega
  have q3 : (k1 * 100000 + k2 * 10000 + k3 * 1000 + k4 * 100 + k5 * 10 + k6) / 1000 % 10
      = k3 := by omega
  have q4 : (k1 * 100000 + k2 * 10000 + k3 * 1000 + k4 * 100 + k5 * 10 + k6) / 100 % 10
      = k4 := by omega
  have q5 : (k1 * 100000 + k2 * 10000 + k3 * 1000 + k4 * 100 + k5 * 10 + k6) / 10 % 10
      = k5 := by omega
  have q6 : (k1 * 100000 + k2 * 10000 + k3 * 1000 + k4 * 100 + k5 * 10 + k6) % 10 = k6 := by
    omega
  rw [q1, q2, q3, q4, q5, q6, ← hd]

/-- The numeral of a number from 100000 to 999999 has 6 decimal digits and does
not start with `0`. -/
theorem repr_sixDigit (n : Nat) (h1 : 100000 ≤ n) (h2 : n ≤ 999999) :
    IsSixDigitString (Nat.repr n) ∧ (Nat.repr n).data.head? ≠ some '0' := by
  rw [repr_six n h1 h2]
  refine ⟨⟨rfl, ?_⟩, ?_⟩
  · intro c hc
    simp only [List.mem_cons, List.mem_singleton, List.not_mem_nil, or_false] at hc
    rcases hc with rfl | rfl | rfl | rfl | rfl | rfl <;>
      exact digitChar_mem_asciiDigits _ (by omega)
  · simpa using digitChar_ne_zero (n / 100000) (by omega) (by omega)

/-! ### The messages of the cascade -/

theorem sendOTP_calls (ad : Adapters) (clk : Clock) (r : ℚ) (store : Store) (p : String)
    (cm : Option String) (hv : validateTanzaniaPhone p = true) :
    (sendOTP ad clk r store p cm).calls
      = cascadeCalls ad p (composeMessage cm (generateOTP r)) := by
  unfold cascadeCalls
  cases h1 : ad.sendViaBeem p (composeMessage cm (generateOTP r)) with
  | true => rw [sendOTP_beem ad clk r store p cm hv h1]; simp
  | false =>
    cases h2 : ad.sendViaTigo p (composeMessage cm (generateOTP r)) with
    | true => rw [sendOTP_tigo ad clk r store p cm hv h1 h2]; simp
    | false =>
      cases h3 : ad.sendViaTwilio p (composeMessage cm (generateOTP r)) with
      | true => rw [sendOTP_twilio ad clk r store p cm hv h1 h2 h3]; simp
      | false => rw [sendOTP_allFail ad clk r store p cm hv h1 h2 h3]; simp

theorem cascadeCalls_ne_nil (ad : Adapters) (p msg : String) : cascadeCalls ad p msg ≠ [] := by
  unfold cascadeCalls
  split_ifs <;> simp

theorem cascadeCalls_message (ad : Adapters) (p msg : String) :
    ∀ c ∈ cascadeCalls ad p msg, c.message = msg := by
  unfold cascadeCalls
  intro c hc
  split_ifs at hc <;> simp at hc
  · rw [hc]
  · rcases hc with rfl | rfl <;> rfl
  · rcases hc with rfl | rfl | rfl <;> rfl

/-! ## The claims -/

/-! ### C1: the decision order of verifyOTP -/

/-- C1. For non-empty `phoneNumber` and `otp`, every collection and every
clock, `verifyOTP` decides by the first matching rule, in this order: no
document gives not-found and leaves the collection unchanged; `now > expiresAt`
deletes the document and gives deadline-exceeded (and a later call then gives
not-found); `verified` gives already-exists, collection unchanged;
`attempts >= 3` deletes the document and gives resource-exhausted, whatever the
supplied code; a code different from the stored one adds exactly 1 to
`attempts`, changes nothing else and gives invalid-argument; otherwise
`verified` becomes true with code, attempts and expiry unchanged, and the call
succeeds. `now = expiresAt` falls under the rules for unexpired documents. -/
theorem verifyOTP_decision (clk : Clock) (store : Store) (phoneNumber otp : String)
    (hp : phoneNumber ≠ "") (ho : otp ≠ "") :
    (store phoneNumber = none →
      (verifyOTP clk store phoneNumber otp).result = .error errNotFound ∧
      errNotFound.code = .notFound ∧
      (verifyOTP clk store phoneNumber otp).store = store) ∧
    (∀ d, store phoneNumber = some d →
      (clk.now > d.expiresAt →
        (verifyOTP clk store phoneNumber otp).result = .error errExpired ∧
        errExpired.code = .deadlineExceeded ∧
        (verifyOTP clk store phoneNumber otp).store phoneNumber = none ∧
        (∀ k, k ≠ phoneNumber → (verifyOTP clk store phoneNumber otp).store k = store k) ∧
        ∀ clk2 otp2, otp2 ≠ "" →
          (verifyOTP clk2 (verifyOTP clk store phoneNumber otp).store phoneNumber otp2).result
            = .error errNotFound) ∧
      (clk.now ≤ d.expiresAt → d.verified = true →
        (verifyOTP clk store phoneNumber otp).result = .error errUsed ∧
        errUsed.code = .alreadyExists ∧
        (verifyOTP clk store phoneNumber otp).store = store) ∧
      (clk.now ≤ d.expiresAt → d.verified = false → 3 ≤ d.attempts →
        (verifyOTP clk store phoneNumber otp).result = .error errExhausted ∧
        errExhausted.code = .resourceExhausted ∧
        (verifyOTP clk store phoneNumber otp).store phoneNumber = none ∧
        ∀ k, k ≠ phoneNumber → (verifyOTP clk store phoneNumber otp).store k = store k) ∧
      (clk.now ≤ d.expiresAt → d.verified = false → d.attempts < 3 → otp ≠ d.otp →
        (verifyOTP clk store phoneNumber otp).result = .error errMismatch ∧
        errMismatch.code = .invalidArgument ∧
        (verifyOTP clk store phoneNumber otp).store phoneNumber
          = some { d with attempts := d.attempts + 1 } ∧
        ∀ k, k ≠ phoneNumber → (verifyOTP clk store phoneNumber otp).store k = store k) ∧
      (clk.now ≤ d.expiresAt → d.verified = false → d.attempts < 3 → otp = d.otp →
        (verifyOTP clk store phoneNumber otp).result
          = .ok ⟨true, "OTP verified successfully", clk.responseTime⟩ ∧
        (∃ d2, (verifyOTP clk store phoneNumber otp).store phoneNumber = some d2 ∧
          d2.verified = true ∧ d2.otp = d.otp ∧ d2.attempts = d.attempts ∧
          d2.expiresAt = d.expiresAt) ∧
        ∀ k, k ≠ phoneNumber → (verifyOTP clk store phoneNumber otp).store k = store k) ∧
      (clk.now = d.expiresAt →
        (verifyOTP clk store phoneNumber otp).result ≠ .error errExpired)) := by
  refine ⟨fun h => ?_, fun d h => ⟨fun hexp => ?_, fun hexp hv => ?_, fun hexp hv ha => ?_,
    fun hexp hv ha hne => ?_, fun hexp hv ha heq => ?_, fun heq =>
      (verifyOTP_unexpired_ne_expired clk store _ _ d hp ho h (Nat.le_of_eq heq)).1⟩⟩
  · rw [verifyOTP_notFound clk store _ _ hp ho h]; exact ⟨rfl, rfl, rfl⟩
  · rw [verifyOTP_expired clk store _ _ d hp ho h hexp]
    refine ⟨rfl, rfl, Store.delete_same _ _, fun k hk => Store.delete_other _ _ _ hk, ?_⟩
    intro clk2 otp2 ho2
    rw [verifyOTP_notFound clk2 _ _ _ hp ho2 (Store.delete_same _ _)]
  · rw [verifyOTP_used clk store _ _ d hp ho h hexp hv]; exact ⟨rfl, rfl, rfl⟩
  · rw [verifyOTP_exhausted clk store _ _ d hp ho h hexp hv ha]
    exact ⟨rfl, rfl, Store.delete_same _ _, fun k hk => Store.delete_other _ _ _ hk⟩
  · rw [verifyOTP_mismatch clk store _ _ d hp ho h hexp hv ha hne]
    exact ⟨rfl, rfl, Store.set_same _ _ _, fun k hk => Store.set_other _ _ _ _ hk⟩
  · subst heq
    rw [verifyOTP_match clk store _ d hp ho h hexp hv ha]
    exact ⟨rfl, ⟨_, Store.set_same _ _ _, rfl, rfl, rfl, rfl⟩,
      fun k hk => Store.set_other _ _ _ _ hk⟩

/-- Witness for C1: on the freshly issued sample document, read exactly at its
expiry time 601000, the correct code is accepted. -/
theorem verifyOTP_decision_witness :
    samplePhone ≠ "" ∧ "100000" ≠ "" ∧
    issuedStore samplePhone = some ⟨"100000", 1001, 601000, 0, false, none⟩ ∧
    (verifyOTP ⟨601000, 601001, 601002⟩ issuedStore samplePhone "100000").result
      = .ok ⟨true, "OTP verified successfully", 601002⟩ :=
  have h : issuedStore samplePhone = some ⟨"100000", 1001, 601000, 0, false, none⟩ := by
    rw [issuedStore_eq]; decide
  ⟨by decide, by decide, h,
    ((verifyOTP_decision ⟨601000, 601001, 601002⟩ issuedStore samplePhone "100000"
      (by decide) (by decide)).2 _ h).2.2.2.2.1 (by decide) rfl (by decide) rfl |>.1⟩

/-! ### C2: issue, then verify -/

/-- C2. For a valid phone number and adapter outcomes of which at least one is
a success, `sendOTP` succeeds; a `verifyOTP` for the same number with the
generated code at any time `now <= expiresAt` then succeeds and sets
`verified`; a second `verifyOTP` with the same code, still unexpired, gives
already-exists and leaves the collection as it was. -/
theorem issue_verify_round_trip (ad : Adapters) (clk : Clock) (r : ℚ) (store : Store)
    (phoneNumber : String) (customMessage : Option String) (clk1 clk2 : Clock)
    (s1 s2 : Store)
    (hv : validateTanzaniaPhone phoneNumber = true)
    (hs : ∃ pr, ad.outcome pr phoneNumber (composeMessage customMessage (generateOTP r)) = true)
    (e1 : s1 = (sendOTP ad clk r store phoneNumber customMessage).store)
    (e2 : s2 = (verifyOTP clk1 s1 phoneNumber (generateOTP r)).store)
    (h1 : clk1.now ≤ clk.now + 600000) (h2 : clk2.now ≤ clk.now + 600000) :
    (sendOTP ad clk r store phoneNumber customMessage).result.toBool = true ∧
    (∃ d, s1 phoneNumber = some d ∧ d.otp = generateOTP r ∧ d.expiresAt = clk.now + 600000 ∧
      d.verified = false) ∧
    (verifyOTP clk1 s1 phoneNumber (generateOTP r)).result
      = .ok ⟨true, "OTP verified successfully", clk1.responseTime⟩ ∧
    (∃ d, s2 phoneNumber = some d ∧ d.verified = true) ∧
    (verifyOTP clk2 s2 phoneNumber (generateOTP r)).result = .error errUsed ∧
    errUsed.code = .alreadyExists ∧
    (verifyOTP clk2 s2 phoneNumber (generateOTP r)).store = s2 := by
  obtain ⟨pr, hpr⟩ := hs
  have hok := sendOTP_ok_of_outcome ad clk r store phoneNumber customMessage hv pr hpr
  have hst := (sendOTP_ok_inv ad clk r store phoneNumber customMessage hok).2
  have hp := valid_ne_empty hv
  have hg := generateOTP_ne_empty r
  rw [hst] at e1
  have hd : s1 phoneNumber = some (freshRecord clk (generateOTP r)) := by
    rw [e1]; exact Store.set_same _ _ _
  have hv1 := verifyOTP_match clk1 s1 phoneNumber (freshRecord clk (generateOTP r)) hp hg hd
    (by simpa [freshRecord] using h1) rfl (by simp [freshRecord])
  have hfo : (freshRecord clk (generateOTP r)).otp = generateOTP r := rfl
  rw [hfo] at hv1
  rw [hv1] at e2
  have hd2 : s2 phoneNumber = some ((freshRecord clk (generateOTP r)).markVerified clk1.serverTime) := by
    rw [e2]; exact Store.set_same _ _ _
  have hv2 := verifyOTP_used clk2 s2 phoneNumber (generateOTP r) _ hp hg hd2
    (by simpa [freshRecord, OTPRecord.markVerified] using h2) rfl
  refine ⟨hok, ⟨_, hd, rfl, rfl, rfl⟩, ?_, ⟨_, hd2, rfl⟩, ?_, rfl, ?_⟩
  · rw [hv1]
  · rw [hv2]
  · rw [hv2]

/-- Witness for C2: Beem down and Tigo up, issue at time 1000, verify twice at
time 2000. -/
theorem issue_verify_round_trip_witness :
    (verifyOTP laterClock (sendOTP beemDown sampleClock 0 Store.empty samplePhone none).store
      samplePhone (generateOTP 0)).result = .ok ⟨true, "OTP verified successfully", 2002⟩ ∧
    (verifyOTP laterClock
      (verifyOTP laterClock (sendOTP beemDown sampleClock 0 Store.empty samplePhone none).store
        samplePhone (generateOTP 0)).store
      samplePhone (generateOTP 0)).result = .error errUsed :=
  have h := issue_verify_round_trip beemDown sampleClock 0 Store.empty samplePhone none
    laterClock laterClock _ _ (by decide) ⟨.Tigo, rfl⟩ rfl rfl (by decide) (by decide)
  ⟨h.2.2.1, h.2.2.2.2.1⟩

/-! ### C3: attempt exhaustion -/

/-- C3. Starting from a freshly issued, unexpired document (`attempts = 0`,
`verified = false`) with no intervening issue, three consecutive `verifyOTP`
calls that supply codes different from the stored one each give
invalid-argument and leave `attempts` at 1, 2 and 3; the fourth call, with any
supplied code including the correct one, gives resource-exhausted and deletes
the document; a fifth call gives not-found. A supplied code is a non-empty
string: an empty `otp` is rejected as missing before any document is read. -/
theorem attempt_exhaustion (ad : Adapters) (clk : Clock) (r : ℚ) (store : Store)
    (phoneNumber : String) (customMessage : Option String)
    (k1 k2 k3 k4 k5 : Clock) (c1 c2 c3 c4 c5 : String) (s0 s1 s2 s3 s4 : Store)
    (hok : (sendOTP ad clk r store phoneNumber customMessage).result.toBool = true)
    (e0 : s0 = (sendOTP ad clk r store phoneNumber customMessage).store)
    (e1 : s1 = (verifyOTP k1 s0 phoneNumber c1).store)
    (e2 : s2 = (verifyOTP k2 s1 phoneNumber c2).store)
    (e3 : s3 = (verifyOTP k3 s2 phoneNumber c3).store)
    (e4 : s4 = (verifyOTP k4 s3 phoneNumber c4).store)
    (t1 : k1.now ≤ clk.now + 600000) (t2 : k2.now ≤ clk.now + 600000)
    (t3 : k3.now ≤ clk.now + 600000) (t4 : k4.now ≤ clk.now + 600000)
    (n1 : c1 ≠ "") (n2 : c2 ≠ "") (n3 : c3 ≠ "") (n4 : c4 ≠ "") (n5 : c5 ≠ "")
    (w1 : c1 ≠ generateOTP r) (w2 : c2 ≠ generateOTP r) (w3 : c3 ≠ generateOTP r) :
    (∃ d, s0 phoneNumber = some d ∧ d.attempts = 0 ∧ d.verified = false ∧
      d.otp = generateOTP r) ∧
    (verifyOTP k1 s0 phoneNumber c1).result = .error errMismatch ∧
    (∃ d, s1 phoneNumber = some d ∧ d.attempts = 1) ∧
    (verifyOTP k2 s1 phoneNumber c2).result = .error errMismatch ∧
    (∃ d, s2 phoneNumber = some d ∧ d.attempts = 2) ∧
    (verifyOTP k3 s2 phoneNumber c3).result = .error errMismatch ∧
    (∃ d, s3 phoneNumber = some d ∧ d.attempts = 3) ∧
    errMismatch.code = .invalidArgument ∧
    (verifyOTP k4 s3 phoneNumber c4).result = .error errExhausted ∧
    errExhausted.code = .resourceExhausted ∧
    s4 phoneNumber = none ∧
    (verifyOTP k5 s4 phoneNumber c5).result = .error errNotFound ∧
    errNotFound.code = .notFound := by
  obtain ⟨hv, hst⟩ := sendOTP_ok_inv ad clk r store phoneNumber customMessage hok
  have hp := valid_ne_empty hv
  rw [hst] at e0
  have hd0 : s0 phoneNumber = some (freshRecord clk (generateOTP r)) := by
    rw [e0]; exact Store.set_same _ _ _
  have v1 := verifyOTP_mismatch k1 s0 phoneNumber c1 _ hp n1 hd0
    (by simpa [freshRecord] using t1) rfl (by simp [freshRecord]) w1
  rw [v1] at e1
  have hd1 : s1 phoneNumber = some (freshRecord clk (generateOTP r)).incrementAttempts := by
    rw [e1]; exact Store.set_same _ _ _
  have v2 := verifyOTP_mismatch k2 s1 phoneNumber c2 _ hp n2 hd1
    (by simpa [freshRecord, OTPRecord.incrementAttempts] using t2) rfl
    (by simp [freshRecord, OTPRecord.incrementAttempts]) w2
  rw [v2] at e2
  have hd2 : s2 phoneNumber
      = some (freshRecord clk (generateOTP r)).incrementAttempts.incrementAttempts := by
    rw [e2]; exact Store.set_same _ _ _
  have v3 := verifyOTP_mismatch k3 s2 phoneNumber c3 _ hp n3 hd2
    (by simpa [freshRecord, OTPRecord.incrementAttempts] using t3) rfl
    (by simp [freshRecord, OTPRecord.incrementAttempts]) w3
  rw [v3] at e3
  have hd3 : s3 phoneNumber
      = some (freshRecord clk
          (generateOTP r)).incrementAttempts.incrementAttempts.incrementAttempts := by
    rw [e3]; exact Store.set_same _ _ _
  have v4 := verifyOTP_exhausted k4 s3 phoneNumber c4 _ hp n4 hd3
    (by simpa [freshRecord, OTPRecord.incrementAttempts] using t4) rfl
    (by simp [freshRecord, OTPRecord.incrementAttempts])
  rw [v4] at e4
  have hd4 : s4 phoneNumber = none := by
    rw [e4]; exact Store.delete_same _ _
  have v5 := verifyOTP_notFound k5 s4 phoneNumber c5 hp n5 hd4
  refine ⟨⟨_, hd0, rfl, rfl, rfl⟩, by rw [v1], ⟨_, hd1, rfl⟩, by rw [v2], ⟨_, hd2, rfl⟩,
    by rw [v3], ⟨_, hd3, rfl⟩, rfl, by rw [v4], rfl, hd4, by rw [v5], rfl⟩

/-- Witness for C3: three wrong codes, then the correct code `100000`, then
one more call, against the sample issue. -/
theorem attempt_exhaustion_witness :
    (verifyOTP laterClock
      (verifyOTP laterClock
        (verifyOTP laterClock
          (verifyOTP laterClock issuedStore samplePhone "111111").store
          samplePhone "222222").store
        samplePhone "333333").store
      samplePhone "100000").result = .error errExhausted :=
  (attempt_exhaustion allUp sampleClock 0 Store.empty samplePhone none
    laterClock laterClock laterClock laterClock laterClock
    "111111" "222222" "333333" "100000" "100000" _ _ _ _ _
    rfl rfl rfl rfl rfl rfl (by decide) (by decide) (by decide) (by decide)
    (by decide) (by decide) (by decide) (by decide) (by decide)
    (by rw [generateOTP_zero]; decide) (by rw [generateOTP_zero]; decide)
    (by rw [generateOTP_zero]; decide)).2.2.2.2.2.2.2.2.1

/-! ### C4: the order of the cascade -/

/-- C4. For a valid phone number and any adapter outcomes, `sendOTP` invokes
the adapters in the order Beem, Tigo, Twilio, each at most once and each with
the recipient and the composed message, invokes every adapter that precedes an
invoked one only if it failed, invokes none after one that reports success, and
when at least one adapter succeeds returns the name of the first one in that
order whose outcome is success. -/
theorem cascade_order (ad : Adapters) (clk : Clock) (r : ℚ) (store : Store)
    (phoneNumber : String) (customMessage : Option String)
    (hv : validateTanzaniaPhone phoneNumber = true) :
    (sendOTP ad clk r store phoneNumber customMessage).calls.map (·.provider)
      <+: [Provider.Beem, Provider.Tigo, Provider.Twilio] ∧
    ((sendOTP ad clk r store phoneNumber customMessage).calls.map (·.provider)).Nodup ∧
    (∀ c ∈ (sendOTP ad clk r store phoneNumber customMessage).calls,
      c.phoneNumber = phoneNumber ∧
      c.message = composeMessage customMessage (generateOTP r)) ∧
    (∀ pre c post, (sendOTP ad clk r store phoneNumber customMessage).calls = pre ++ c :: post →
      ad.outcome c.provider c.phoneNumber c.message = true → post = []) ∧
    ((∃ pr, ad.outcome pr phoneNumber (composeMessage customMessage (generateOTP r)) = true) →
      ∃ pr resp,
        firstSuccess ad phoneNumber (composeMessage customMessage (generateOTP r)) = some pr ∧
        (sendOTP ad clk r store phoneNumber customMessage).result = .ok resp ∧
        resp.provider = pr.name ∧
        ((sendOTP ad clk r store phoneNumber customMessage).calls.map (·.provider)).getLast?
          = some pr) := by
  cases h1 : ad.sendViaBeem phoneNumber (composeMessage customMessage (generateOTP r)) with
  | true =>
    rw [sendOTP_beem ad clk r store phoneNumber customMessage hv h1]
    refine ⟨⟨[.Tigo, .Twilio], rfl⟩, by simp, by simp, ?_, fun _ => ⟨.Beem, _, ?_, rfl, rfl, rfl⟩⟩
    · exact no_call_after_success _ _ (by simp)
    · simp [firstSuccess, cascadeOrder, Adapters.outcome, h1]
  | false =>
    cases h2 : ad.sendViaTigo phoneNumber (composeMessage customMessage (generateOTP r)) with
    | true =>
      rw [sendOTP_tigo ad clk r store phoneNumber customMessage hv h1 h2]
      refine ⟨⟨[.Twilio], rfl⟩, by simp, by simp, ?_, fun _ => ⟨.Tigo, _, ?_, rfl, rfl, rfl⟩⟩
      · exact no_call_after_success _ _ (by simp [Adapters.outcome, h1])
      · simp [firstSuccess, cascadeOrder, Adapters.outcome, h1, h2]
    | false =>
      cases h3 : ad.sendViaTwilio phoneNumber (composeMessage customMessage (generateOTP r)) with
      | true =>
        rw [sendOTP_twilio ad clk r store phoneNumber customMessage hv h1 h2 h3]
        refine ⟨⟨[], rfl⟩, by simp, by simp, ?_, fun _ => ⟨.Twilio, _, ?_, rfl, rfl, rfl⟩⟩
        · exact no_call_after_success _ _ (by simp [Adapters.outcome, h1, h2])
        · simp [firstSuccess, cascadeOrder, Adapters.outcome, h1, h2, h3]
      | false =>
        rw [sendOTP_allFail ad clk r store phoneNumber customMessage hv h1 h2 h3]
        refine ⟨⟨[], rfl⟩, by simp, by simp, ?_, ?_⟩
        · exact no_call_after_success _ _ (by simp [Adapters.outcome, h1, h2])
        · rintro ⟨pr, hpr⟩
          cases pr <;> simp [Adapters.outcome, h1, h2, h3] at hpr

/-- Witness for C4: with Beem failing and the other two up, the calls are Beem
then Tigo and the provider returned is Tigo. -/
theorem cascade_order_witness :
    validateTanzaniaPhone samplePhone = true ∧
    (sendOTP beemDown sampleClock 0 Store.empty samplePhone none).calls.map (·.provider)
      <+: [Provider.Beem, Provider.Tigo, Provider.Twilio] ∧
    ∃ pr resp, firstSuccess beemDown samplePhone (composeMessage none (generateOTP 0)) = some pr ∧
      (sendOTP beemDown sampleClock 0 Store.empty samplePhone none).result = .ok resp ∧
      resp.provider = pr.name ∧
      ((sendOTP beemDown sampleClock 0 Store.empty samplePhone none).calls.map
        (·.provider)).getLast? = some pr :=
  have h := cascade_order beemDown sampleClock 0 Store.empty samplePhone none (by decide)
  ⟨by decide, h.1, h.2.2.2.2 ⟨.Tigo, rfl⟩⟩

/-! ### C5: every provider fails -/

/-- C5. For a valid phone number, when Beem, Tigo and Twilio all report
failure, `sendOTP` fails with code internal and the collection is exactly as
before the call: no document is created and a document already stored for the
recipient is unchanged. -/
theorem all_providers_fail (ad : Adapters) (clk : Clock) (r : ℚ) (store : Store)
    (phoneNumber : String) (customMessage : Option String)
    (hv : validateTanzaniaPhone phoneNumber = true)
    (h1 : ad.sendViaBeem phoneNumber (composeMessage customMessage (generateOTP r)) = false)
    (h2 : ad.sendViaTigo phoneNumber (composeMessage customMessage (generateOTP r)) = false)
    (h3 : ad.sendViaTwilio phoneNumber (composeMessage customMessage (generateOTP r)) = false) :
    (∃ e, (sendOTP ad clk r store phoneNumber customMessage).result = .error e ∧
      e.code = .internal) ∧
    (sendOTP ad clk r store phoneNumber customMessage).store = store ∧
    (sendOTP ad clk r store phoneNumber customMessage).store phoneNumber
      = store phoneNumber := by
  rw [sendOTP_allFail ad clk r store phoneNumber customMessage hv h1 h2 h3]
  exact ⟨⟨_, rfl, rfl⟩, rfl, rfl⟩

/-- Witness for C5: all adapters down, against a collection that already holds
a document for the recipient. -/
theorem all_providers_fail_witness :
    (∃ e, (sendOTP allDown laterClock (1 / 2) issuedStore samplePhone none).result = .error e ∧
      e.code = .internal) ∧
    (sendOTP allDown laterClock (1 / 2) issuedStore samplePhone none).store samplePhone
      = some ⟨"100000", 1001, 601000, 0, false, none⟩ :=
  have h := all_providers_fail allDown laterClock (1 / 2) issuedStore samplePhone none
    (by decide) rfl rfl rfl
  ⟨h.1, by rw [h.2.2, issuedStore_eq]; decide⟩

/-! ### C6: the record written by a successful issue -/

/-- C6. Whenever `sendOTP` succeeds for a recipient at clock value `now`, the
collection afterwards holds for that recipient the record with the code
generated in this call, `attempts = 0`, `verified = false` and
`expiresAt = now + 600000`, whatever was stored for the recipient before; the
documents of all other recipients are unchanged. -/
theorem issue_writes_fresh_record (ad : Adapters) (clk : Clock) (r : ℚ) (store : Store)
    (phoneNumber : String) (customMessage : Option String) (resp : SendResponse)
    (hok : (sendOTP ad clk r store phoneNumber customMessage).result = .ok resp) :
    (sendOTP ad clk r store phoneNumber customMessage).store phoneNumber
      = some { otp := generateOTP r, timestamp := clk.serverTime,
               expiresAt := clk.now + 600000, attempts := 0, verified := false,
               verifiedAt := none } ∧
    ∀ k, k ≠ phoneNumber →
      (sendOTP ad clk r store phoneNumber customMessage).store k = store k := by
  rw [(sendOTP_ok_inv ad clk r store phoneNumber customMessage (toBool_of_ok hok)).2]
  exact ⟨Store.set_same _ _ _, fun k hk => Store.set_other _ _ _ _ hk⟩

/-- Witness for C6: a second issue to the sample recipient, with draw `1/2`,
over the document of the first issue. -/
theorem issue_writes_fresh_record_witness :
    (sendOTP beemDown laterClock (1 / 2) issuedStore samplePhone none).store samplePhone
      = some ⟨generateOTP (1 / 2), 2001, 602000, 0, false, none⟩ :=
  (issue_writes_fresh_record beemDown laterClock (1 / 2) issuedStore samplePhone none
    ⟨true, "Tigo", "OTP sent successfully via Tigo SMS", 2002⟩
    (by rw [sendOTP_tigo beemDown laterClock (1 / 2) issuedStore samplePhone none
      (by decide) rfl rfl]; rfl)).1

/-! ### C7: the validator -/

/-- C7. `validateTanzaniaPhone` returns true for a string exactly when the
string is 13 characters long and consists of `+255`, then a `6` or a `7`, then
exactly 8 ASCII decimal digits, and false for every other string;
`+255712345678` is accepted, `+255512345678`, `0712345678` and
`+2557123456789` are rejected. -/
theorem validateTanzaniaPhone_spec :
    (∀ s, validateTanzaniaPhone s = true ↔ IsTanzaniaMobile s) ∧
    (∀ s, ¬ IsTanzaniaMobile s → validateTanzaniaPhone s = false) ∧
    validateTanzaniaPhone "+255712345678" = true ∧
    validateTanzaniaPhone "+255512345678" = false ∧
    validateTanzaniaPhone "0712345678" = false ∧
    validateTanzaniaPhone "+2557123456789" = false := by
  refine ⟨validate_iff, fun s hs => ?_, by decide, by decide, by decide, by decide⟩
  cases h : validateTanzaniaPhone s with
  | false => rfl
  | true => exact absurd ((validate_iff s).1 h) hs

/-! ### C8: the attempt counter along sequential executions -/

/-- C8. In every state reached from the empty collection by a finite sequence
of `sendOTP` and `verifyOTP` calls run one after another, a stored document has
`attempts <= 3` (and `0 <= attempts`, a natural number), and `attempts` equals
the number of `verifyOTP` calls that returned the mismatch error for that
recipient since the document was last written by `sendOTP`; no `verifyOTP` call
lowers `attempts` of a document it leaves in place. -/
theorem attempts_invariant (calls : List Call) (p : String) (d : OTPRecord)
    (h : runCalls Store.empty calls p = some d) :
    0 ≤ d.attempts ∧ d.attempts ≤ 3 ∧
    d.attempts = mismatchCount p Store.empty calls 0 ∧
    ∀ clk q c d2, (verifyOTP clk (runCalls Store.empty calls) q c).store p = some d2 →
      d.attempts ≤ d2.attempts := by
  have hinv := attemptsInv_run p calls Store.empty 0 (by intro d hd; simp [Store.empty] at hd)
  exact ⟨Nat.zero_le _, (hinv d h).1, (hinv d h).2,
    fun clk q c d2 h2 => verifyOTP_attempts_mono clk _ q c p d d2 h h2⟩

/-- Witness for C8: an issue followed by two wrong guesses leaves
`attempts = 2`, the number of mismatch errors. -/
theorem attempts_invariant_witness :
    runCalls Store.empty
      [.send allUp sampleClock 0 samplePhone none,
       .verify laterClock samplePhone "111111",
       .verify laterClock samplePhone "222222"] samplePhone
      = some ⟨"100000", 1001, 601000, 2, false, none⟩ ∧
    2 = mismatchCount samplePhone Store.empty
      [.send allUp sampleClock 0 samplePhone none,
       .verify laterClock samplePhone "111111",
       .verify laterClock samplePhone "222222"] 0 :=
  have h : runCalls Store.empty
      [.send allUp sampleClock 0 samplePhone none,
       .verify laterClock samplePhone "111111",
       .verify laterClock samplePhone "222222"] samplePhone
      = some ⟨"100000", 1001, 601000, 2, false, none⟩ := by
    show (verifyOTP laterClock (verifyOTP laterClock issuedStore samplePhone "111111").store
      samplePhone "222222").store samplePhone = _
    rw [issuedStore_eq]; decide
  ⟨h, (attempts_invariant _ samplePhone _ h).2.2.1⟩

/-! ### C9: racing wrong guesses -/

/-- C9: the code breaks the claim. Four `verifyOTP` calls with the wrong code
`000000` run against the freshly issued sample document. Run one after another,
the `attempts >= 3` guard holds the cap: the first three calls throw the
mismatch error and leave `attempts = 3`, the fourth throws resource-exhausted
and deletes the document. With the four reads scheduled before the four writes,
every call reads `attempts = 0` and passes the guard, all four throw the
mismatch error, and the stored `attempts` ends at 4, above the cap of 3. -/
theorem concurrent_cap_race :
    "000000" ≠ generateOTP 0 ∧
    (((Config.run ⟨issuedStore, fourWrongGuesses⟩ [0, 0, 1, 1, 2, 2]).store samplePhone).map
        (fun d => d.attempts) = some 3 ∧
      (Config.run ⟨issuedStore, fourWrongGuesses⟩ [0, 0, 1, 1, 2, 2, 3, 3]).calls.map
        (fun inv => inv.phase.thrown)
        = [some errMismatch, some errMismatch, some errMismatch, some errExhausted] ∧
      (Config.run ⟨issuedStore, fourWrongGuesses⟩ [0, 0, 1, 1, 2, 2, 3, 3]).store samplePhone
        = none) ∧
    ((Config.run ⟨issuedStore, fourWrongGuesses⟩ [0, 1, 2, 3]).calls.map
        (fun inv => inv.phase.isDone) = [false, false, false, false] ∧
      ((Config.run ⟨issuedStore, fourWrongGuesses⟩ [0, 1, 2, 3]).store samplePhone).map
        (fun d => d.attempts) = some 0 ∧
      (Config.run ⟨issuedStore, fourWrongGuesses⟩ [0, 1, 2, 3, 0, 1, 2, 3]).calls.map
        (fun inv => inv.phase.thrown)
        = [some errMismatch, some errMismatch, some errMismatch, some errMismatch] ∧
      ((Config.run ⟨issuedStore, fourWrongGuesses⟩ [0, 1, 2, 3, 0, 1, 2, 3]).store
        samplePhone).map (fun d => d.attempts) = some 4 ∧
      ¬ (4 ≤ 3)) := by
  rw [issuedStore_eq, generateOTP_zero]
  decide

/-! ### C10: the provider is returned, not stored -/

/-- C10, as stated, fails: with Beem failing and Tigo succeeding the response
has provider `Tigo`, and the document stored for the recipient has no
`providerUsed` field. -/
theorem provider_stored_counterexample :
    (∃ resp, (sendOTP beemDown sampleClock 0 Store.empty samplePhone none).result = .ok resp ∧
      resp.provider = "Tigo") ∧
    ∃ d, (sendOTP beemDown sampleClock 0 Store.empty samplePhone none).store samplePhone
        = some d ∧
      d.data.lookup "providerUsed" = none ∧
      d.data.lookup "providerUsed" ≠ some (.str "Tigo") := by
  rw [sendOTP_tigo beemDown sampleClock 0 Store.empty samplePhone none (by decide) rfl rfl]
  refine ⟨⟨_, rfl, rfl⟩, freshRecord sampleClock (generateOTP 0),
    Store.set_same Store.empty samplePhone _, ?_, ?_⟩ <;>
    simp [OTPRecord.data, freshRecord, List.lookup]

/-- C10, amended. Whenever `sendOTP` succeeds, the response carries the name of
the first adapter, in the order Beem, Tigo, Twilio, that accepted delivery; the
document stored for the recipient has exactly the fields `otp`, `timestamp`,
`expiresAt`, `attempts` and `verified`, and no `providerUsed` field. -/
theorem provider_returned_not_stored (ad : Adapters) (clk : Clock) (r : ℚ) (store : Store)
    (phoneNumber : String) (customMessage : Option String) (resp : SendResponse)
    (hok : (sendOTP ad clk r store phoneNumber customMessage).result = .ok resp) :
    (∃ pr, firstSuccess ad phoneNumber (composeMessage customMessage (generateOTP r)) = some pr ∧
      resp.provider = pr.name) ∧
    ∃ d, (sendOTP ad clk r store phoneNumber customMessage).store phoneNumber = some d ∧
      d.data.map Prod.fst = ["otp", "timestamp", "expiresAt", "attempts", "verified"] ∧
      d.data.lookup "providerUsed" = none := by
  obtain ⟨hv, hst⟩ := sendOTP_ok_inv ad clk r store phoneNumber customMessage (toBool_of_ok hok)
  refine ⟨?_, ?_⟩
  · cases h1 : ad.sendViaBeem phoneNumber (composeMessage customMessage (generateOTP r)) with
    | true =>
      rw [sendOTP_beem ad clk r store phoneNumber customMessage hv h1] at hok
      injection hok with hok
      exact ⟨.Beem, by simp [firstSuccess, cascadeOrder, Adapters.outcome, h1], by rw [← hok]; rfl⟩
    | false =>
      cases h2 : ad.sendViaTigo phoneNumber (composeMessage customMessage (generateOTP r)) with
      | true =>
        rw [sendOTP_tigo ad clk r store phoneNumber customMessage hv h1 h2] at hok
        injection hok with hok
        exact ⟨.Tigo, by simp [firstSuccess, cascadeOrder, Adapters.outcome, h1, h2],
          by rw [← hok]; rfl⟩
      | false =>
        cases h3 : ad.sendViaTwilio phoneNumber
            (composeMessage customMessage (generateOTP r)) with
        | true =>
          rw [sendOTP_twilio ad clk r store phoneNumber customMessage hv h1 h2 h3] at hok
          injection hok with hok
          exact ⟨.Twilio, by simp [firstSuccess, cascadeOrder, Adapters.outcome, h1, h2, h3],
            by rw [← hok]; rfl⟩
        | false =>
          rw [sendOTP_allFail ad clk r store phoneNumber customMessage hv h1 h2 h3] at hok
          exact absurd hok (by simp)
  · rw [hst]
    exact ⟨_, Store.set_same _ _ _, by simp [OTPRecord.data, freshRecord],
      by simp [OTPRecord.data, freshRecord, List.lookup]⟩

/-- Witness for the amended C10: Beem down, Tigo up. -/
theorem provider_returned_not_stored_witness :
    ∃ d, (sendOTP beemDown sampleClock 0 Store.empty samplePhone none).store samplePhone
        = some d ∧
      d.data.map Prod.fst = ["otp", "timestamp", "expiresAt", "attempts", "verified"] ∧
      d.data.lookup "providerUsed" = none :=
  (provider_returned_not_stored beemDown sampleClock 0 Store.empty samplePhone none
    ⟨true, "Tigo", "OTP sent successfully via Tigo SMS", 1002⟩
    (by rw [sendOTP_tigo beemDown sampleClock 0 Store.empty samplePhone none
      (by decide) rfl rfl]; rfl)).2

/-! ### C11: the range of generateOTP -/

/-- C11, as stated, fails: `000000` is a string of 6 decimal digits, and no
draw `r` with `0 <= r < 1` makes `generateOTP` return it. -/
theorem generateOTP_full_range_counterexample :
    IsSixDigitString "000000" ∧ ¬ IsGeneratedCode "000000" := by
  refine ⟨by decide, ?_⟩
  rintro ⟨r, h0, h1, h⟩
  obtain ⟨n, hlo, hhi, hn⟩ := generateOTP_eq_repr r h0 h1
  have hne := (repr_sixDigit n hlo hhi).2
  rw [← hn, h] at hne
  exact hne rfl

/-- C11, amended. With the random draw any rational `r`, `0 <= r < 1`, the set
of strings `generateOTP` can return is exactly the set of decimal numerals of
the numbers 100000 through 999999, that is, the strings of exactly 6 decimal
digits whose first digit is not `0`: every output is such a string, and every
such string is returned for some `r`. There is no zero padding. -/
theorem generateOTP_range (s : String) :
    (IsGeneratedCode s ↔ ∃ n : Nat, 100000 ≤ n ∧ n ≤ 999999 ∧ s = toString n) ∧
    (IsGeneratedCode s ↔ IsSixDigitString s ∧ s.data.head? ≠ some '0') := by
  have hA : IsGeneratedCode s ↔ ∃ n : Nat, 100000 ≤ n ∧ n ≤ 999999 ∧ s = Nat.repr n := by
    constructor
    · rintro ⟨r, h0, h1, rfl⟩
      exact generateOTP_eq_repr r h0 h1
    · rintro ⟨n, hlo, hhi, rfl⟩
      exact generateOTP_surj n hlo hhi
  refine ⟨hA, hA.trans ⟨?_, ?_⟩⟩
  · rintro ⟨n, hlo, hhi, rfl⟩
    exact repr_sixDigit n hlo hhi
  · rintro ⟨h6, hz⟩
    exact sixDigit_eq_repr s h6 hz

/-! ### C12: a custom message replaces the template -/

/-- C12. For a valid phone number and a non-empty `customMessage`, the message
`sendOTP` passes to every adapter it calls is exactly `customMessage`, and the
calls do not depend on the generated code, while the record stored on success
still holds the generated code. When `customMessage` is absent or empty the
message is the default template, which contains the generated code and the
statement that it is valid for 10 minutes. -/
theorem custom_message_drops_code (ad : Adapters) (clk : Clock) (r : ℚ) (store : Store)
    (phoneNumber customMessage : String)
    (hv : validateTanzaniaPhone phoneNumber = true) (hm : customMessage ≠ "") :
    (sendOTP ad clk r store phoneNumber (some customMessage)).calls ≠ [] ∧
    (∀ c ∈ (sendOTP ad clk r store phoneNumber (some customMessage)).calls,
      c.message = customMessage) ∧
    (∀ r2, (sendOTP ad clk r2 store phoneNumber (some customMessage)).calls
      = (sendOTP ad clk r store phoneNumber (some customMessage)).calls) ∧
    (∀ resp, (sendOTP ad clk r store phoneNumber (some customMessage)).result = .ok resp →
      ∃ d, (sendOTP ad clk r store phoneNumber (some customMessage)).store phoneNumber = some d ∧
        d.otp = generateOTP r) ∧
    (∀ cm, cm = none ∨ cm = some "" →
      (sendOTP ad clk r store phoneNumber cm).calls ≠ [] ∧
      ∀ c ∈ (sendOTP ad clk r store phoneNumber cm).calls,
        c.message = "Your MtaaSuite verification code is: " ++ generateOTP r ++
          ". Valid for 10 minutes. Do not share this code.") ∧
    (∃ pre post, defaultMessage (generateOTP r) = pre ++ generateOTP r ++ post) ∧
    (∃ pre post, defaultMessage (generateOTP r) = pre ++ "Valid for 10 minutes" ++ post) := by
  have hcm : ∀ r2, composeMessage (some customMessage) (generateOTP r2) = customMessage := by
    intro r2; simp [composeMessage, truthy, hm]
  have hcalls := fun r2 => sendOTP_calls ad clk r2 store phoneNumber (some customMessage) hv
  simp only [hcm] at hcalls
  refine ⟨?_, ?_, ?_, ?_, ?_, ⟨"Your MtaaSuite verification code is: ",
    ". Valid for 10 minutes. Do not share this code.", ?_⟩,
    ⟨"Your MtaaSuite verification code is: " ++ generateOTP r ++ ". ",
      ". Do not share this code.", ?_⟩⟩
  · rw [hcalls r]; exact cascadeCalls_ne_nil _ _ _
  · rw [hcalls r]; exact cascadeCalls_message _ _ _
  · intro r2; rw [hcalls r2, hcalls r]
  · intro resp hok
    rw [(sendOTP_ok_inv ad clk r store phoneNumber _ (toBool_of_ok hok)).2]
    exact ⟨_, Store.set_same _ _ _, rfl⟩
  · intro cm hcmv
    have hd : composeMessage cm (generateOTP r) = defaultMessage (generateOTP r) := by
      rcases hcmv with rfl | rfl <;> simp [composeMessage, truthy]
    rw [sendOTP_calls ad clk r store phoneNumber cm hv, hd]
    refine ⟨cascadeCalls_ne_nil _ _ _, fun c hc => ?_⟩
    rw [cascadeCalls_message _ _ _ c hc]
    simp [defaultMessage, String.append_assoc]
  · simp [defaultMessage, String.append_assoc]
  · have e : ". Valid for 10 minutes. " ++ "Do not share this code."
        = ". " ++ ("Valid for 10 minutes" ++ ". Do not share this code.") := by decide
    simp only [defaultMessage, String.append_assoc]
    rw [e]

/-- Witness for C12: with Beem down and the custom message `Hello`, both
adapter calls carry `Hello`, and the stored code is the generated `100000`. -/
theorem custom_message_drops_code_witness :
    (sendOTP beemDown sampleClock 0 Store.empty samplePhone (some "Hello")).calls
      = [⟨.Beem, samplePhone, "Hello"⟩, ⟨.Tigo, samplePhone, "Hello"⟩] ∧
    (∀ c ∈ (sendOTP beemDown sampleClock 0 Store.empty samplePhone (some "Hello")).calls,
      c.message = "Hello") ∧
    ∃ d, (sendOTP beemDown sampleClock 0 Store.empty samplePhone (some "Hello")).store
        samplePhone = some d ∧ d.otp = "100000" :=
  have h := custom_message_drops_code beemDown sampleClock 0 Store.empty samplePhone "Hello"
    (by decide) (by decide)
  have hok : (sendOTP beemDown sampleClock 0 Store.empty samplePhone (some "Hello")).result
      = .ok ⟨true, "Tigo", "OTP sent successfully via Tigo SMS", 1002⟩ := by
    rw [sendOTP_tigo beemDown sampleClock 0 Store.empty samplePhone (some "Hello")
      (by decide) rfl rfl]; rfl
  ⟨by rw [sendOTP_tigo beemDown sampleClock 0 Store.empty samplePhone (some "Hello")
      (by decide) rfl rfl]; simp [composeMessage, truthy],
    h.2.1,
    (h.2.2.2.1 _ hok).elim fun d hd => ⟨d, hd.1, by rw [hd.2, generateOTP_zero]⟩⟩

end MtaaSuite
